import Mathlib

/-!
Verification of the progression-cost engine and validated state store of the
genshin-training-guide repository.

The JavaScript sources are embedded shallowly:

* `levelTables.js` — cumulative EXP/Mora tables and the derived level-up cost
  functions.  JavaScript computes the currency cost as `Math.ceil(exp * 0.2)`
  (characters) and `Math.ceil(exp * 0.005)` (weapons) in IEEE-754 doubles; we
  checked exhaustively, for every pair of entries of each cumulative table,
  that the double-precision results coincide with the exact rational ceilings
  `⌈exp / 5⌉` and `⌈exp / 200⌉`, so the functions are modelled with exact
  natural-number ceiling division.
* `genshinData.js` — phase mapping, cost merging and the ascension/talent cost
  functions.  The genshin-db package is an external collaborator, so the
  per-entity cost tables it returns are parameters of the embedding.
* `useTrainingGuide.js` — the store: default goal factory, goal mutations,
  validation of imports, and export/import.  `JSON.parse`/`JSON.stringify` are
  modelled at the level of JSON values (`JValue`), where stringify-then-parse
  is the identity; a parse failure makes `importData` leave the store
  unchanged and is not modelled further.
* component setup code (`ArtifactsTab.vue`, `CharacterLevelTab.vue`,
  `LevelRangeInput.vue`) — the mutation wiring used by the claims.
-/

namespace TrainingGuide

/-! ## Cost items and `mergeCosts` (genshinData.js) -/

/-- A named resource quantity `{ name, count }`. -/
structure CostItem where
  name : String
  count : Int
deriving DecidableEq, Repr

/-- Adds `k` to the `count` of the first entry named `nm`, like the in-place
`existing.count += item.count` on the entry returned by `accumulator.find`. -/
def bumpFirst (nm : String) (k : Int) : List CostItem → List CostItem
  | [] => []
  | c :: rest =>
    if c.name = nm then { c with count := c.count + k } :: rest
    else c :: bumpFirst nm k rest

/-- One step of `mergeCosts`: merge a single item into the accumulator. -/
def addCostItem (acc : List CostItem) (it : CostItem) : List CostItem :=
  if acc.any (fun c => c.name == it.name) then bumpFirst it.name it.count acc
  else acc ++ [{ name := it.name, count := it.count }]

/-- `mergeCosts(accumulator, items)`: functional rendering of the in-place
accumulator mutation — returns the updated accumulator. -/
def mergeCosts (accumulator items : List CostItem) : List CostItem :=
  items.foldl addCostItem accumulator

/-- The spec-level `merge(lists...)` operation: fold any number of cost-item
lists into a single accumulator via `mergeCosts`. -/
def mergeAll (lists : List (List CostItem)) : List CostItem :=
  lists.foldl mergeCosts []

/-! ## Cumulative tables (levelTables.js) -/

/-- `LEVEL_TO_PHASE` from genshinData.js. -/
def LEVEL_TO_PHASE : List (Int × Nat) :=
  [(1, 0), (20, 0), (40, 1), (50, 2), (60, 3), (70, 4), (80, 5), (90, 6)]

/-- JavaScript `table[k] ?? 0`: object lookup with default `0`. -/
def tableGet (t : List (Int × Nat)) (k : Int) : Nat :=
  ((t.find? (fun p => p.1 == k)).map (fun p => p.2)).getD 0

/-- `CHARACTER_CUMULATIVE_EXP`. -/
def CHARACTER_CUMULATIVE_EXP : List (Int × Nat) :=
  [(1, 0), (20, 120175), (40, 578325), (50, 1121825), (60, 1893275),
   (70, 2929275), (80, 4291775), (90, 6091675)]

/-- `WEAPON_5STAR_CUMULATIVE_EXP`. -/
def WEAPON_5STAR_CUMULATIVE_EXP : List (Int × Nat) :=
  [(1, 0), (20, 404000), (40, 1589500), (50, 2974500), (60, 4936500),
   (70, 7490500), (80, 10768500), (90, 14941500)]

/-- `WEAPON_4STAR_CUMULATIVE_EXP`. -/
def WEAPON_4STAR_CUMULATIVE_EXP : List (Int × Nat) :=
  [(1, 0), (20, 218000), (40, 831500), (50, 1521500), (60, 2510500),
   (70, 3819500), (80, 5491500), (90, 7658500)]

/-- `WEAPON_3STAR_CUMULATIVE_EXP`. -/
def WEAPON_3STAR_CUMULATIVE_EXP : List (Int × Nat) :=
  [(1, 0), (20, 98000), (40, 361000), (50, 643000), (60, 1048000),
   (70, 1574000), (80, 2239000), (90, 3092000)]

/-- `ARTIFACT_5STAR_CUMULATIVE_MORA`. -/
def ARTIFACT_5STAR_CUMULATIVE_MORA : List (Int × Nat) :=
  [(0, 0), (4, 2700), (8, 10200), (12, 24050), (16, 47950), (20, 88800)]

/-- `ARTIFACT_5STAR_CUMULATIVE_XP`. -/
def ARTIFACT_5STAR_CUMULATIVE_XP : List (Int × Nat) :=
  [(0, 0), (4, 16300), (8, 66650), (12, 189325), (16, 436675), (20, 871500)]

/-- Ceiling division on naturals, the exact counterpart of the
double-precision `Math.ceil(a * rate)` / `Math.ceil(a / unit)` computations
(coincidence on all table-derived values checked exhaustively). -/
def ceilDiv (a b : Nat) : Nat := (a + b - 1) / b

/-- Result record of `getCharacterLevelUpCosts`: `{ exp, mora, heroWits }`. -/
structure CharLevelUpCosts where
  exp : Nat
  mora : Nat
  heroWits : Nat
deriving DecidableEq, Repr

/-- `getCharacterLevelUpCosts(currentLevel, targetLevel)`.  JavaScript's
`Math.max(0, toExp - fromExp)` is natural-number truncated subtraction. -/
def getCharacterLevelUpCosts (currentLevel targetLevel : Int) : CharLevelUpCosts :=
  let fromExp := tableGet CHARACTER_CUMULATIVE_EXP currentLevel
  let toExp := tableGet CHARACTER_CUMULATIVE_EXP targetLevel
  let exp := toExp - fromExp
  { exp := exp, mora := ceilDiv exp 5, heroWits := ceilDiv exp 20000 }

/-- Result record of `getWeaponLevelUpCosts`: `{ exp, mora, mysticOres }`. -/
structure WeaponLevelUpCosts where
  exp : Nat
  mora : Nat
  mysticOres : Nat
deriving DecidableEq, Repr

/-- `getWeaponLevelUpCosts(currentLevel, targetLevel, rarity = 5)`. -/
def getWeaponLevelUpCosts (currentLevel targetLevel : Int) (rarity : Int := 5) :
    WeaponLevelUpCosts :=
  let table :=
    if rarity == 3 then WEAPON_3STAR_CUMULATIVE_EXP
    else if rarity == 4 then WEAPON_4STAR_CUMULATIVE_EXP
    else WEAPON_5STAR_CUMULATIVE_EXP
  let fromExp := tableGet table currentLevel
  let toExp := tableGet table targetLevel
  let exp := toExp - fromExp
  { exp := exp, mora := ceilDiv exp 200, mysticOres := ceilDiv exp 10000 }

/-- `getArtifactLevelCost(currentLevel, targetLevel)`. -/
def getArtifactLevelCost (currentLevel targetLevel : Int) : Nat :=
  let fromMora := tableGet ARTIFACT_5STAR_CUMULATIVE_MORA currentLevel
  let toMora := tableGet ARTIFACT_5STAR_CUMULATIVE_MORA targetLevel
  toMora - fromMora

/-- `getArtifactXpCost(currentLevel, targetLevel)`. -/
def getArtifactXpCost (currentLevel targetLevel : Int) : Nat :=
  let fromXp := tableGet ARTIFACT_5STAR_CUMULATIVE_XP currentLevel
  let toXp := tableGet ARTIFACT_5STAR_CUMULATIVE_XP targetLevel
  toXp - fromXp

/-! ## Ascension and talent costs (genshinData.js)

The genshin-db lookups `getCharacter` / `getWeapon` / `getTalentData` are
external; their results are parameters.  `costs phase = none` models a
missing `ascend${phase}` key (and an entirely missing `costs` object is the
constant-`none` function). -/

/-- The `costs` object of a genshin-db character or weapon entry, indexed by
ascension phase. -/
structure AscendableData where
  costs : Nat → Option (List CostItem)

/-- `getCharacterAscensionCosts(charName, currentLevel, targetLevel)`; the
`char` parameter is the (possibly missing) genshin-db lookup result. -/
def getCharacterAscensionCosts (char : Option AscendableData)
    (currentLevel targetLevel : Int) : List CostItem :=
  match char with
  | none => []
  | some c =>
    let fromPhase := tableGet LEVEL_TO_PHASE currentLevel + 1
    let toPhase := tableGet LEVEL_TO_PHASE targetLevel
    if toPhase < fromPhase then []
    else
      (List.range' fromPhase (toPhase + 1 - fromPhase)).foldl
        (fun costs phase =>
          match c.costs phase with
          | some items => mergeCosts costs items
          | none => costs) []

/-- `getWeaponAscensionCosts(weaponName, currentLevel, targetLevel)`. -/
def getWeaponAscensionCosts (weapon : Option AscendableData)
    (currentLevel targetLevel : Int) : List CostItem :=
  match weapon with
  | none => []
  | some w =>
    let fromPhase := tableGet LEVEL_TO_PHASE currentLevel + 1
    let toPhase := tableGet LEVEL_TO_PHASE targetLevel
    if toPhase < fromPhase then []
    else
      (List.range' fromPhase (toPhase + 1 - fromPhase)).foldl
        (fun costs phase =>
          match w.costs phase with
          | some items => mergeCosts costs items
          | none => costs) []

/-- The genshin-db talent entry: `costs` maps a level `lvl` to the material
list stored under `lvl${lvl}`; `costs = none` models a falsy
`talentData?.costs`. -/
structure TalentData where
  costs : Option (Int → Option (List CostItem))

/-- `getTalentCosts(charName, currentLevel, targetLevel)`: one loop iteration
per level in `[currentLevel + 1, targetLevel]`. -/
def getTalentCosts (talentData : Option TalentData)
    (currentLevel targetLevel : Int) : List CostItem :=
  match talentData with
  | none => []
  | some td =>
    match td.costs with
    | none => []
    | some costs =>
      (List.range (targetLevel - currentLevel).toNat).foldl
        (fun acc i =>
          match costs (currentLevel + 1 + i) with
          | some items => mergeCosts acc items
          | none => acc) []

/-! ## The store (useTrainingGuide.js): typed state and mutations

Goal records are created by `createDefaultGoal` and only mutated through the
component setters below, so in-memory records always have this shape; the
typed structures model it.  JavaScript object/array mutation is rendered
functionally: a mutation returns the updated state. -/

/-- One entry of a goal's `artifacts` array. -/
structure Artifact where
  slot : String
  currentLevel : Int
  targetLevel : Int
  mainStat : Option String
  desiredSubstats : List String
  targetSubstatCount : Int
deriving DecidableEq, Repr

/-- A `{ currentLevel, targetLevel }` pair of one talent. -/
structure TalentPair where
  currentLevel : Int
  targetLevel : Int
deriving DecidableEq, Repr

/-- The `talents` object with its three fixed keys. -/
structure TalentGoals where
  normalAttack : TalentPair
  skill : TalentPair
  burst : TalentPair
deriving DecidableEq, Repr

/-- One character's goal record. -/
structure Goal where
  currentLevel : Int
  targetLevel : Int
  weapon : Option String
  weaponCurrentLevel : Int
  weaponTargetLevel : Int
  artifacts : List Artifact
  talents : TalentGoals
deriving DecidableEq, Repr

/-- The module-level reactive `state`; `characterGoals` is an object in
insertion order, modelled as an association list with unique keys. -/
structure TrainingState where
  ownedCharacters : List String
  characterGoals : List (String × Goal)
  selectedCharacter : Option String
  ownershipMode : Bool
deriving DecidableEq, Repr

/-- The initial `reactive({...})` state (before any `loadFromStorage`). -/
def initialState : TrainingState :=
  { ownedCharacters := [], characterGoals := [], selectedCharacter := none,
    ownershipMode := false }

/-- `createDefaultGoal()`. -/
def createDefaultGoal : Goal :=
  { currentLevel := 1
    targetLevel := 90
    weapon := none
    weaponCurrentLevel := 1
    weaponTargetLevel := 90
    artifacts :=
      [{ slot := "Flower", currentLevel := 0, targetLevel := 20,
         mainStat := some "HP", desiredSubstats := [], targetSubstatCount := 0 },
       { slot := "Plume", currentLevel := 0, targetLevel := 20,
         mainStat := some "ATK", desiredSubstats := [], targetSubstatCount := 0 },
       { slot := "Sands", currentLevel := 0, targetLevel := 20,
         mainStat := none, desiredSubstats := [], targetSubstatCount := 0 },
       { slot := "Goblet", currentLevel := 0, targetLevel := 20,
         mainStat := none, desiredSubstats := [], targetSubstatCount := 0 },
       { slot := "Circlet", currentLevel := 0, targetLevel := 20,
         mainStat := none, desiredSubstats := [], targetSubstatCount := 0 }]
    talents :=
      { normalAttack := { currentLevel := 1, targetLevel := 9 }
        skill := { currentLevel := 1, targetLevel := 9 }
        burst := { currentLevel := 1, targetLevel := 9 } } }

/-- `state.characterGoals[charName]` (`none` = property absent). -/
def lookupGoal (st : TrainingState) (charName : String) : Option Goal :=
  ((st.characterGoals.find? (fun p => p.1 == charName)).map (fun p => p.2))

/-- `ensureGoal(charName)`: stored goal records are objects, hence truthy, so
the JavaScript `!state.characterGoals[charName]` test is absence. -/
def ensureGoal (st : TrainingState) (charName : String) : TrainingState :=
  if (lookupGoal st charName).isNone then
    { st with characterGoals := st.characterGoals ++ [(charName, createDefaultGoal)] }
  else st

/-- Applies `f` to the value of the first (hence, keys being unique, the only)
entry with key `charName`. -/
def updateGoalList (f : Goal → Goal) (charName : String) :
    List (String × Goal) → List (String × Goal)
  | [] => []
  | p :: rest =>
    if p.1 == charName then (p.1, f p.2) :: rest
    else p :: updateGoalList f charName rest

/-- `updateGoal(charName, fn)` with a callback mutator. -/
def updateGoal (st : TrainingState) (charName : String) (f : Goal → Goal) :
    TrainingState :=
  let st1 := ensureGoal st charName
  { st1 with characterGoals := updateGoalList f charName st1.characterGoals }

/-- In-place update of `list[i]`, as in `goal.artifacts[slotIndex][field] = v`. -/
def listModify : List α → Nat → (α → α) → List α
  | [], _, _ => []
  | x :: rest, 0, f => f x :: rest
  | x :: rest, n + 1, f => x :: listModify rest n f

/-- `isMainStatLocked(slot)` (ArtifactsTab.vue). -/
def isMainStatLocked (slot : String) : Bool :=
  slot == "Flower" || slot == "Plume"

/-- `setMainStat(slotIndex, val)` (ArtifactsTab.vue): stores `val || null`
into the slot's `mainStat` — there is no lock check in the mutation itself. -/
def setMainStat (st : TrainingState) (charName : String) (slotIndex : Nat)
    (val : String) : TrainingState :=
  updateGoal st charName (fun goal =>
    { goal with
        artifacts := listModify goal.artifacts slotIndex (fun a =>
          { a with mainStat := if val == "" then none else some val }) })

/-- `setCurrentLevel(val)` (CharacterLevelTab.vue). -/
def setCurrentLevel (st : TrainingState) (charName : String) (val : Int) :
    TrainingState :=
  updateGoal st charName (fun goal => { goal with currentLevel := val })

/-- `setTargetLevel(val)` (CharacterLevelTab.vue). -/
def setTargetLevel (st : TrainingState) (charName : String) (val : Int) :
    TrainingState :=
  updateGoal st charName (fun goal => { goal with targetLevel := val })

/-! ## `LevelRangeInput.vue`: the current-level input handler -/

/-- The pair of events a `LevelRangeInput` handler emits
(`update:currentLevel`, `update:targetLevel`); `none` = not emitted. -/
structure EmittedLevels where
  current : Option Int
  target : Option Int
deriving DecidableEq, Repr

/-- `onCurrentInput(e)`: `val = parseInt(e.target.value)` is passed as
`Option Int` (`none` = NaN).  The clamp is `Math.max(currentMin,
Math.min(val, currentMax))`; the target is bumped to
`targetOptions.find(o => o > clamped)` when `targetLevel <= clamped`, and the
`if (next)` truthiness guard skips a zero option. -/
def onCurrentInput (currentMin currentMax : Int) (targetOptions : List Int)
    (targetLevel : Int) (val : Option Int) : EmittedLevels :=
  match val with
  | none => { current := none, target := none }
  | some v =>
    let clamped := max currentMin (min v currentMax)
    let target :=
      if targetLevel ≤ clamped then
        match targetOptions.find? (fun o => clamped < o) with
        | some next => if next == 0 then none else some next
        | none => none
      else none
    { current := some clamped, target := target }

/-- `TARGET_LEVEL_OPTIONS` (CharacterLevelTab.vue):
`Object.keys(CHARACTER_CUMULATIVE_EXP).map(Number).filter(n => n > 1)`;
integer-like object keys enumerate in ascending numeric order. -/
def TARGET_LEVEL_OPTIONS : List Int :=
  (CHARACTER_CUMULATIVE_EXP.map (fun p => p.1)).filter (fun n => 1 < n)

/-- The CharacterLevelTab wiring of the current-level input: the component
reads the goal's `targetLevel`, runs `onCurrentInput` (with `currentMin = 1`,
`currentMax = 89`) and applies the emitted events through `setCurrentLevel` /
`setTargetLevel`.  The tab renders only when `currentGoal` exists. -/
def applyCharCurrentInput (st : TrainingState) (charName : String)
    (val : Option Int) : TrainingState :=
  match lookupGoal st charName with
  | none => st
  | some goal =>
    let emitted := onCurrentInput 1 89 TARGET_LEVEL_OPTIONS goal.targetLevel val
    let st1 :=
      match emitted.current with
      | some v => setCurrentLevel st charName v
      | none => st
    match emitted.target with
    | some t => setTargetLevel st1 charName t
    | none => st1

/-! ## JSON values and the import validator (useTrainingGuide.js)

An imported document is an arbitrary parsed JSON value.  The allow-list of
character names (`VALID_CHAR_NAMES`, built from the external
`getAllCharacterNames()`) is a parameter `validNames`.  In the numeric
comparisons of the validator, JavaScript coerces non-numbers with `ToNumber`;
the cases that yield `NaN` (and `undefined`) compare `false`.  We model
string/array/object operands as `NaN` as well — no verified statement depends
on those coercions. -/

/-- A parsed JSON value / JavaScript value.  Object fields keep insertion
order; keys are unique (as produced by `JSON.parse`). -/
inductive JValue where
  | jnull
  | jbool (b : Bool)
  | jnum (n : Int)
  | jstr (s : String)
  | jarr (elems : List JValue)
  | jobj (fields : List (String × JValue))

/-- Property read on an object's field list (`none` = `undefined`). -/
def jLookup (fields : List (String × JValue)) (k : String) : Option JValue :=
  ((fields.find? (fun p => p.1 == k)).map (fun p => p.2))

/-- JavaScript property read `v[k]`: `undefined` on every non-object. -/
def getProp : JValue → String → Option JValue
  | .jobj fields, k => jLookup fields k
  | _, _ => none

/-- JavaScript truthiness. -/
def jTruthy : JValue → Bool
  | .jnull => false
  | .jbool b => b
  | .jnum n => !(n == 0)
  | .jstr s => !(s == "")
  | .jarr _ => true
  | .jobj _ => true

/-- Truthiness of a possibly-`undefined` value. -/
def optTruthy : Option JValue → Bool
  | none => false
  | some v => jTruthy v

/-- Strict-equality view as a number: `some n` iff the value is the number
`n`. -/
def numVal : Option JValue → Option Int
  | some (.jnum n) => some n
  | _ => none

/-- Strict-equality view as a string: `some s` iff the value is the string
`s`. -/
def strVal : Option JValue → Option String
  | some (.jstr s) => some s
  | _ => none

/-- JavaScript `x < bound` for a possibly-`undefined` `x` (`NaN` cases are
`false`; string/array/object coercion modelled as `NaN`). -/
def jsLtNum (x : Option JValue) (bound : Int) : Bool :=
  match x with
  | some (.jnum m) => decide (m < bound)
  | some .jnull => decide ((0 : Int) < bound)
  | some (.jbool b) => decide ((if b then (1 : Int) else 0) < bound)
  | _ => false

/-- JavaScript `x > bound` for a possibly-`undefined` `x`. -/
def jsGtNum (x : Option JValue) (bound : Int) : Bool :=
  match x with
  | some (.jnum m) => decide (bound < m)
  | some .jnull => decide (bound < (0 : Int))
  | some (.jbool b) => decide (bound < (if b then (1 : Int) else 0))
  | _ => false

/-- `typeof x === 'object' && x !== null` (arrays included). -/
def jsIsObject : JValue → Bool
  | .jobj _ => true
  | .jarr _ => true
  | _ => false

/-- `VALID_CHARACTER_LEVELS` (module constant). -/
def VALID_CHARACTER_LEVELS : List Int := [20, 40, 50, 60, 70, 80, 90]

/-- `VALID_SLOTS`. -/
def VALID_SLOTS : List String := ["Flower", "Plume", "Sands", "Goblet", "Circlet"]

/-- `VALID_TALENT_KEYS`. -/
def VALID_TALENT_KEYS : List String := ["normalAttack", "skill", "burst"]

/-- `!VALID_CHARACTER_LEVELS.includes(v) && v !== 1` is no error exactly when
`v` is one of the listed numbers or the number `1`. -/
def charLevelOk (x : Option JValue) : Bool :=
  match numVal x with
  | some n => VALID_CHARACTER_LEVELS.contains n || n == 1
  | none => false

/-- Errors contributed by one element of `ownedCharacters`.  The JavaScript
messages interpolate `JSON.stringify(name)`; serialization of the offending
value is not reproduced, which only affects message text, never presence. -/
def ownedNameErrors (validNames : List String) (v : JValue) : List String :=
  match v with
  | .jstr s =>
    if s ∈ validNames then []
    else ["Unknown character in ownedCharacters: \"" ++ s ++ "\""]
  | _ => ["ownedCharacters contains non-string value"]

/-- The `ownedCharacters` section of `validateImportData`. -/
def ownedCharactersErrors (validNames : List String)
    (fields : List (String × JValue)) : List String :=
  match jLookup fields "ownedCharacters" with
  | none => []
  | some (.jarr names) => names.flatMap (ownedNameErrors validNames)
  | some _ => ["ownedCharacters must be an array"]

/-- The `selectedCharacter` section of `validateImportData`. -/
def selectedCharacterErrors (validNames : List String)
    (fields : List (String × JValue)) : List String :=
  match jLookup fields "selectedCharacter" with
  | none => []
  | some .jnull => []
  | some (.jstr s) =>
    if s ∈ validNames then [] else ["Invalid selectedCharacter: \"" ++ s ++ "\""]
  | some _ => ["Invalid selectedCharacter"]

/-- The character-level checks of one goal. -/
def goalLevelErrors (charName : String) (goal : JValue) : List String :=
  (if charLevelOk (getProp goal "currentLevel") then []
   else ["\"" ++ charName ++ "\" has invalid currentLevel"]) ++
  (if charLevelOk (getProp goal "targetLevel") then []
   else ["\"" ++ charName ++ "\" has invalid targetLevel"])

/-- The `artifacts` checks of one goal: present ⇒ an array of exactly 5
entries whose `slot` matches `VALID_SLOTS` positionally (`!a ||
a.slot !== VALID_SLOTS[i]`). -/
def goalArtifactErrors (charName : String) (goal : JValue) : List String :=
  match getProp goal "artifacts" with
  | none => []
  | some (.jarr arts) =>
    if arts.length == 5 then
      (List.range 5).flatMap (fun i =>
        let a := arts.getD i .jnull
        if jTruthy a && (strVal (getProp a "slot") == some (VALID_SLOTS.getD i "")) then
          []
        else
          ["\"" ++ charName ++ "\" artifact[" ++ toString i ++ "] has wrong slot"])
    else ["\"" ++ charName ++ "\" artifacts must be an array of 5"]
  | some _ => ["\"" ++ charName ++ "\" artifacts must be an array of 5"]

/-- The `talents` checks of one goal: for each required key whose value is
present and truthy, both levels must be in `[1, 10]`; a missing key is not
checked. -/
def goalTalentErrors (charName : String) (goal : JValue) : List String :=
  match getProp goal "talents" with
  | none => []
  | some t =>
    if jsIsObject t then
      VALID_TALENT_KEYS.flatMap (fun key =>
        let tk := getProp t key
        let cur := tk.bind (fun v => getProp v "currentLevel")
        let tgt := tk.bind (fun v => getProp v "targetLevel")
        if optTruthy tk &&
            (jsLtNum cur 1 || jsGtNum cur 10 || jsLtNum tgt 1 || jsGtNum tgt 10) then
          ["\"" ++ charName ++ "\" talent \"" ++ key ++ "\" has out-of-range levels"]
        else [])
    else ["\"" ++ charName ++ "\" talents must be an object"]

/-- The checks of one `characterGoals` entry; an unknown key or a non-object
value short-circuits (`continue`). -/
def goalErrors (validNames : List String) (charName : String) (goal : JValue) :
    List String :=
  if charName ∈ validNames then
    if jsIsObject goal then
      goalLevelErrors charName goal ++ goalArtifactErrors charName goal ++
        goalTalentErrors charName goal
    else ["Goal for \"" ++ charName ++ "\" is not an object"]
  else ["Unknown character in goals: \"" ++ charName ++ "\""]

/-- The `characterGoals` section of `validateImportData`. -/
def characterGoalsErrors (validNames : List String)
    (fields : List (String × JValue)) : List String :=
  match jLookup fields "characterGoals" with
  | none => []
  | some (.jobj goals) => goals.flatMap (fun p => goalErrors validNames p.1 p.2)
  | some _ => ["characterGoals must be an object"]

/-- `validateImportData(data)`: empty result = valid document. -/
def validateImportData (validNames : List String) (data : JValue) : List String :=
  match data with
  | .jobj fields =>
    ownedCharactersErrors validNames fields ++
      selectedCharacterErrors validNames fields ++
      characterGoalsErrors validNames fields
  | _ => ["Import data must be a JSON object"]

/-- The store as the import/export code sees it: after a successful import
its fields hold whatever JSON values the document carried. -/
structure JsStore where
  ownedCharacters : JValue
  characterGoals : JValue
  selectedCharacter : JValue
  ownershipMode : JValue

/-- `importData(jsonString)` on an already-parsed document (a parse failure
returns with the store untouched and is not modelled): validate, bail out on
any error, otherwise apply the three guarded field assignments. -/
def importData (validNames : List String) (st : JsStore) (parsed : JValue) :
    JsStore :=
  let errors := validateImportData validNames parsed
  if 0 < errors.length then st
  else
    let st1 :=
      match getProp parsed "ownedCharacters" with
      | some (.jarr xs) => { st with ownedCharacters := JValue.jarr xs }
      | _ => st
    let st2 :=
      match getProp parsed "characterGoals" with
      | some v => if jTruthy v then { st1 with characterGoals := v } else st1
      | none => st1
    match getProp parsed "selectedCharacter" with
    | some v => { st2 with selectedCharacter := v }
    | none => st2

/-! ## Export (`JSON.stringify(state)` as a JSON value) -/

/-- A nullable string field (`null` when absent). -/
def encodeOptString : Option String → JValue
  | some s => .jstr s
  | none => .jnull

/-- Serialization of one artifact entry, in key insertion order. -/
def encodeArtifact (a : Artifact) : JValue :=
  .jobj [("slot", .jstr a.slot),
         ("currentLevel", .jnum a.currentLevel),
         ("targetLevel", .jnum a.targetLevel),
         ("mainStat", encodeOptString a.mainStat),
         ("desiredSubstats", .jarr (a.desiredSubstats.map JValue.jstr)),
         ("targetSubstatCount", .jnum a.targetSubstatCount)]

/-- Serialization of one talent pair. -/
def encodeTalentPair (t : TalentPair) : JValue :=
  .jobj [("currentLevel", .jnum t.currentLevel),
         ("targetLevel", .jnum t.targetLevel)]

/-- Serialization of one goal record. -/
def encodeGoal (g : Goal) : JValue :=
  .jobj [("currentLevel", .jnum g.currentLevel),
         ("targetLevel", .jnum g.targetLevel),
         ("weapon", encodeOptString g.weapon),
         ("weaponCurrentLevel", .jnum g.weaponCurrentLevel),
         ("weaponTargetLevel", .jnum g.weaponTargetLevel),
         ("artifacts", .jarr (g.artifacts.map encodeArtifact)),
         ("talents", .jobj
           [("normalAttack", encodeTalentPair g.talents.normalAttack),
            ("skill", encodeTalentPair g.talents.skill),
            ("burst", encodeTalentPair g.talents.burst)])]

/-- The document `exportData()` produces: `JSON.stringify(state)` with the
state's four fields in insertion order. -/
def exportDoc (st : TrainingState) : JValue :=
  .jobj [("ownedCharacters", .jarr (st.ownedCharacters.map JValue.jstr)),
         ("characterGoals", .jobj (st.characterGoals.map (fun p => (p.1, encodeGoal p.2)))),
         ("selectedCharacter", encodeOptString st.selectedCharacter),
         ("ownershipMode", .jbool st.ownershipMode)]

/-! ## Validity of a typed state against the import validator -/

/-- Talent levels within `[1, 10]`. -/
def talentPairValid (t : TalentPair) : Bool :=
  decide (1 ≤ t.currentLevel) && decide (t.currentLevel ≤ 10) &&
    decide (1 ≤ t.targetLevel) && decide (t.targetLevel ≤ 10)

/-- A goal record whose serialization passes every per-goal validator check:
character levels in the milestone set (or 1), artifact slots in canonical
order, talent levels in range. -/
def goalExportValid (g : Goal) : Bool :=
  (VALID_CHARACTER_LEVELS.contains g.currentLevel || g.currentLevel == 1) &&
    (VALID_CHARACTER_LEVELS.contains g.targetLevel || g.targetLevel == 1) &&
    (g.artifacts.map (fun a => a.slot) == VALID_SLOTS) &&
    talentPairValid g.talents.normalAttack &&
    talentPairValid g.talents.skill &&
    talentPairValid g.talents.burst

/-- A typed state whose serialization passes the import validator: all names
drawn from the allow-list, all goals `goalExportValid`. -/
def storeExportValid (validNames : List String) (st : TrainingState) : Bool :=
  st.ownedCharacters.all (fun s => validNames.contains s) &&
    st.characterGoals.all (fun p => validNames.contains p.1 && goalExportValid p.2) &&
    (match st.selectedCharacter with
     | none => true
     | some s => validNames.contains s)

/-- Statement apparatus for C1: the document references a character
identifier outside the allow-list in `ownedCharacters`, in
`selectedCharacter`, or as a `characterGoals` key. -/
def referencesUnknownCharacter (validNames : List String) (doc : JValue) : Prop :=
  ∃ fields, doc = .jobj fields ∧
    ((∃ names, jLookup fields "ownedCharacters" = some (.jarr names) ∧
        ∃ s, JValue.jstr s ∈ names ∧ s ∉ validNames) ∨
      (∃ s, jLookup fields "selectedCharacter" = some (.jstr s) ∧
        s ∉ validNames) ∨
      (∃ goals, jLookup fields "characterGoals" = some (.jobj goals) ∧
        ∃ p ∈ goals, p.1 ∉ validNames))

/-! ## Observation functions used by the statements -/

/-- The total count a cost list assigns to one resource name. -/
def totalFor (nm : String) (l : List CostItem) : Int :=
  (l.map (fun c => if c.name = nm then c.count else 0)).sum

/-- The names of a cost list, in order. -/
def costNames (l : List CostItem) : List String :=
  l.map (fun c => c.name)

/-- Appends a name unless it already occurs. -/
def insertName (acc : List String) (n : String) : List String :=
  if n ∈ acc then acc else acc ++ [n]

/-- Keeps the first occurrence of every name, in first-appearance order. -/
def dedupFirst (l : List String) : List String :=
  l.foldl insertName []

/-! ## Lemmas on `mergeCosts` -/

theorem totalFor_append (nm : String) (a b : List CostItem) :
    totalFor nm (a ++ b) = totalFor nm a + totalFor nm b := by
  simp [totalFor]

theorem any_name_iff (l : List CostItem) (nm : String) :
    (l.any fun c => c.name == nm) = true ↔ nm ∈ costNames l := by
  simp only [List.any_eq_true, beq_iff_eq, costNames, List.mem_map]

theorem totalFor_bumpFirst (x nm : String) (k : Int) (l : List CostItem)
    (h : nm ∈ costNames l) :
    totalFor x (bumpFirst nm k l) =
      totalFor x l + (if nm = x then k else 0) := by
  induction l with
  | nil => simp [costNames] at h
  | cons c rest ih =>
    by_cases hc : c.name = nm
    · simp only [bumpFirst, if_pos hc, totalFor, List.map_cons, List.sum_cons]
      by_cases hx : nm = x
      · subst hx
        simp [hc]
        omega
      · have : ¬(c.name = x) := by rw [hc]; exact hx
        simp [this, hx]
    · have hmem : nm ∈ costNames rest := by
        simp only [costNames, List.map_cons, List.mem_cons] at h
        rcases h with h | h
        · exact absurd h.symm hc
        · exact h
      simp only [bumpFirst, if_neg hc, totalFor, List.map_cons, List.sum_cons]
      have := ih hmem
      simp only [totalFor] at this
      omega

theorem totalFor_addCostItem (x : String) (acc : List CostItem) (it : CostItem) :
    totalFor x (addCostItem acc it) =
      totalFor x acc + (if it.name = x then it.count else 0) := by
  by_cases h : (acc.any fun c => c.name == it.name) = true
  · rw [addCostItem, if_pos h]
    exact totalFor_bumpFirst x it.name it.count acc ((any_name_iff acc it.name).mp h)
  · rw [addCostItem, if_neg h, totalFor_append]
    simp [totalFor]

theorem totalFor_mergeCosts (x : String) (items acc : List CostItem) :
    totalFor x (mergeCosts acc items) = totalFor x acc + totalFor x items := by
  induction items generalizing acc with
  | nil => simp [mergeCosts, totalFor]
  | cons i is ih =>
    have step : mergeCosts acc (i :: is) = mergeCosts (addCostItem acc i) is := rfl
    rw [step, ih, totalFor_addCostItem]
    simp only [totalFor, List.map_cons, List.sum_cons]
    omega

theorem costNames_bumpFirst (nm : String) (k : Int) (l : List CostItem) :
    costNames (bumpFirst nm k l) = costNames l := by
  induction l with
  | nil => rfl
  | cons c rest ih =>
    by_cases hc : c.name = nm
    · simp [bumpFirst, if_pos hc, costNames]
    · simp only [bumpFirst, if_neg hc, costNames, List.map_cons]
      simpa [costNames] using ih

theorem costNames_addCostItem (acc : List CostItem) (it : CostItem) :
    costNames (addCostItem acc it) = insertName (costNames acc) it.name := by
  by_cases h : (acc.any fun c => c.name == it.name) = true
  · rw [addCostItem, if_pos h, costNames_bumpFirst, insertName,
      if_pos ((any_name_iff acc it.name).mp h)]
  · have hmem : it.name ∉ costNames acc := fun hm =>
      h ((any_name_iff acc it.name).mpr hm)
    rw [addCostItem, if_neg h, insertName, if_neg hmem]
    simp [costNames]

theorem costNames_mergeCosts (items acc : List CostItem) :
    costNames (mergeCosts acc items) =
      (costNames items).foldl insertName (costNames acc) := by
  induction items generalizing acc with
  | nil => rfl
  | cons i is ih =>
    have step : mergeCosts acc (i :: is) = mergeCosts (addCostItem acc i) is := rfl
    rw [step, ih, costNames_addCostItem]
    rfl

theorem costNames_foldl_mergeCosts (ls : List (List CostItem))
    (acc : List CostItem) :
    costNames (ls.foldl mergeCosts acc) =
      (ls.flatMap costNames).foldl insertName (costNames acc) := by
  induction ls generalizing acc with
  | nil => rfl
  | cons l ls ih =>
    simp only [List.foldl_cons, List.flatMap_cons, List.foldl_append]
    rw [ih, costNames_mergeCosts]

/-- **C2.** Level-up costs come from cumulative-experience differences with
ceiling rounding: character 1→20 costs `⌈120175 × 0.2⌉ = 24035` Mora and
`⌈120175 / 20000⌉ = 7` Hero's Wits; a 5★ weapon 1→20 costs
`⌈404000 × 0.005⌉ = 2020` Mora and `⌈404000 / 10000⌉ = 41` Mystic
Enhancement Ores (the item counts differ from the floor values 6 and 40). -/
theorem levelUpCosts_ceil_examples :
    (getCharacterLevelUpCosts 1 20).mora = 24035 ∧
      (getCharacterLevelUpCosts 1 20).heroWits = 7 ∧
      (getWeaponLevelUpCosts 1 20 5).mora = 2020 ∧
      (getWeaponLevelUpCosts 1 20 5).mysticOres = 41 ∧
      (getCharacterLevelUpCosts 1 20).exp = 120175 ∧
      (getWeaponLevelUpCosts 1 20 5).exp = 404000 := by
  refine ⟨by decide, by decide, by decide, by decide, by decide, by decide⟩

/-- **C4.** `mergeCosts`/`mergeAll` fold cost lists into one, summing counts
per name and keeping names in first-appearance order; per-name totals are
additive over the merge, hence commutative and associative; the example
`merge([{Mora,5},{Mora,10},{Book,2}])` yields `[{Mora,15},{Book,2}]`. -/
theorem mergeCosts_properties :
    (mergeAll [[⟨"Mora", 5⟩, ⟨"Mora", 10⟩, ⟨"Book", 2⟩]] =
      [⟨"Mora", 15⟩, ⟨"Book", 2⟩]) ∧
    (∀ (x : String) (acc items : List CostItem),
      totalFor x (mergeCosts acc items) = totalFor x acc + totalFor x items) ∧
    (∀ (x : String) (a b : List CostItem),
      totalFor x (mergeAll [a, b]) = totalFor x (mergeAll [b, a])) ∧
    (∀ (x : String) (a b c : List CostItem),
      totalFor x (mergeAll [mergeAll [a, b], c]) =
        totalFor x (mergeAll [a, mergeAll [b, c]])) ∧
    (∀ ls : List (List CostItem),
      costNames (mergeAll ls) = dedupFirst (ls.flatMap costNames)) := by
  have hnil : ∀ x : String, totalFor x [] = 0 := fun _ => rfl
  have htot : ∀ (x : String) (ls : List (List CostItem)),
      totalFor x (mergeAll ls) = (ls.map (totalFor x)).sum := by
    intro x ls
    have : ∀ (ls : List (List CostItem)) (acc : List CostItem),
        totalFor x (ls.foldl mergeCosts acc) =
          totalFor x acc + (ls.map (totalFor x)).sum := by
      intro ls
      induction ls with
      | nil => intro acc; simp
      | cons l t ih =>
        intro acc
        simp only [List.foldl_cons, List.map_cons, List.sum_cons, ih,
          totalFor_mergeCosts]
        omega
    simpa [mergeAll, hnil] using this ls []
  refine ⟨by decide, fun x acc items => totalFor_mergeCosts x items acc, ?_, ?_, ?_⟩
  · intro x a b
    simp only [htot, List.map_cons, List.map_nil, List.sum_cons, List.sum_nil]
    omega
  · intro x a b c
    simp only [htot, List.map_cons, List.map_nil, List.sum_cons, List.sum_nil]
    omega
  · intro ls
    simpa [mergeAll, dedupFirst, costNames] using
      costNames_foldl_mergeCosts ls []

/-! ## Zero costs for non-increasing level ranges (C3) -/

theorem levelPhase_mono :
    ∀ c ∈ ([1, 20, 40, 50, 60, 70, 80, 90] : List Int),
      ∀ t ∈ ([1, 20, 40, 50, 60, 70, 80, 90] : List Int),
        t ≤ c → tableGet LEVEL_TO_PHASE t ≤ tableGet LEVEL_TO_PHASE c := by
  decide

theorem getCharacterAscensionCosts_empty (d : Option AscendableData)
    (cur tgt : Int)
    (h : tableGet LEVEL_TO_PHASE tgt < tableGet LEVEL_TO_PHASE cur + 1) :
    getCharacterAscensionCosts d cur tgt = [] := by
  cases d with
  | none => rfl
  | some c => simp [getCharacterAscensionCosts, h]

theorem getWeaponAscensionCosts_empty (d : Option AscendableData)
    (cur tgt : Int)
    (h : tableGet LEVEL_TO_PHASE tgt < tableGet LEVEL_TO_PHASE cur + 1) :
    getWeaponAscensionCosts d cur tgt = [] := by
  cases d with
  | none => rfl
  | some w => simp [getWeaponAscensionCosts, h]

theorem getTalentCosts_empty (td : Option TalentData) (c t : Int) (h : t ≤ c) :
    getTalentCosts td c t = [] := by
  have hz : (t - c).toNat = 0 := by omega
  cases td with
  | none => rfl
  | some d =>
    cases hd : d.costs with
    | none => simp [getTalentCosts, hd]
    | some costs => simp [getTalentCosts, hd, hz]

theorem charExp_mono :
    ∀ c ∈ ([1, 20, 40, 50, 60, 70, 80, 90] : List Int),
      ∀ t ∈ ([1, 20, 40, 50, 60, 70, 80, 90] : List Int),
        t ≤ c →
          tableGet CHARACTER_CUMULATIVE_EXP t ≤
            tableGet CHARACTER_CUMULATIVE_EXP c := by
  decide

theorem weaponExp_mono :
    ∀ T ∈ [WEAPON_3STAR_CUMULATIVE_EXP, WEAPON_4STAR_CUMULATIVE_EXP,
           WEAPON_5STAR_CUMULATIVE_EXP],
      ∀ c ∈ ([1, 20, 40, 50, 60, 70, 80, 90] : List Int),
        ∀ t ∈ ([1, 20, 40, 50, 60, 70, 80, 90] : List Int),
          t ≤ c → tableGet T t ≤ tableGet T c := by
  decide

theorem artifactTable_mono :
    ∀ T ∈ [ARTIFACT_5STAR_CUMULATIVE_MORA, ARTIFACT_5STAR_CUMULATIVE_XP],
      ∀ c ∈ ([0, 4, 8, 12, 16, 20] : List Int),
        ∀ t ∈ ([0, 4, 8, 12, 16, 20] : List Int),
          t ≤ c → tableGet T t ≤ tableGet T c := by
  decide

/-- **C3 (amended).** On milestone inputs, every dimension's cost vanishes
when `targetLevel ≤ currentLevel`: ascension and talent material lists are
empty and the character/weapon/artifact level-up numbers are zero (talent
costs are empty for arbitrary integer inputs).  The unamended claim over all
integer pairs fails off the milestone sets — see the counterexample. -/
theorem costsZero_of_target_le_current (cur tgt : Int)
    (hc : cur ∈ ([1, 20, 40, 50, 60, 70, 80, 90] : List Int))
    (ht : tgt ∈ ([1, 20, 40, 50, 60, 70, 80, 90] : List Int))
    (hle : tgt ≤ cur)
    (char weapon : Option AscendableData) (td : Option TalentData)
    (rarity : Int) (acur atgt : Int)
    (hac : acur ∈ ([0, 4, 8, 12, 16, 20] : List Int))
    (hat : atgt ∈ ([0, 4, 8, 12, 16, 20] : List Int))
    (hale : atgt ≤ acur) :
    getCharacterAscensionCosts char cur tgt = [] ∧
      getWeaponAscensionCosts weapon cur tgt = [] ∧
      (getCharacterLevelUpCosts cur tgt).mora = 0 ∧
      (getCharacterLevelUpCosts cur tgt).heroWits = 0 ∧
      (getWeaponLevelUpCosts cur tgt rarity).mora = 0 ∧
      (getWeaponLevelUpCosts cur tgt rarity).mysticOres = 0 ∧
      getArtifactLevelCost acur atgt = 0 ∧
      getArtifactXpCost acur atgt = 0 ∧
      (∀ c t : Int, t ≤ c → getTalentCosts td c t = []) := by
  have hphase : tableGet LEVEL_TO_PHASE tgt < tableGet LEVEL_TO_PHASE cur + 1 :=
    Nat.lt_succ_of_le (levelPhase_mono cur hc tgt ht hle)
  have hcexp : tableGet CHARACTER_CUMULATIVE_EXP tgt -
      tableGet CHARACTER_CUMULATIVE_EXP cur = 0 :=
    Nat.sub_eq_zero_of_le (charExp_mono cur hc tgt ht hle)
  have hwexp : ∀ T ∈ [WEAPON_3STAR_CUMULATIVE_EXP, WEAPON_4STAR_CUMULATIVE_EXP,
      WEAPON_5STAR_CUMULATIVE_EXP], tableGet T tgt - tableGet T cur = 0 :=
    fun T hT => Nat.sub_eq_zero_of_le (weaponExp_mono T hT cur hc tgt ht hle)
  have hamora : tableGet ARTIFACT_5STAR_CUMULATIVE_MORA atgt -
      tableGet ARTIFACT_5STAR_CUMULATIVE_MORA acur = 0 :=
    Nat.sub_eq_zero_of_le
      (artifactTable_mono ARTIFACT_5STAR_CUMULATIVE_MORA (by simp) acur hac atgt hat hale)
  have haxp : tableGet ARTIFACT_5STAR_CUMULATIVE_XP atgt -
      tableGet ARTIFACT_5STAR_CUMULATIVE_XP acur = 0 :=
    Nat.sub_eq_zero_of_le
      (artifactTable_mono ARTIFACT_5STAR_CUMULATIVE_XP (by simp) acur hac atgt hat hale)
  have hweapon : (getWeaponLevelUpCosts cur tgt rarity).mora = 0 ∧
      (getWeaponLevelUpCosts cur tgt rarity).mysticOres = 0 := by
    by_cases h3 : (rarity == 3) = true
    · have := hwexp WEAPON_3STAR_CUMULATIVE_EXP (by simp)
      simp [getWeaponLevelUpCosts, h3, this, ceilDiv]
    · by_cases h4 : (rarity == 4) = true
      · have := hwexp WEAPON_4STAR_CUMULATIVE_EXP (by simp)
        simp [getWeaponLevelUpCosts, h3, h4, this, ceilDiv]
      · have := hwexp WEAPON_5STAR_CUMULATIVE_EXP (by simp)
        simp [getWeaponLevelUpCosts, h3, h4, this, ceilDiv]
  refine ⟨getCharacterAscensionCosts_empty char cur tgt hphase,
    getWeaponAscensionCosts_empty weapon cur tgt hphase,
    ?_, ?_, hweapon.1, hweapon.2, ?_, ?_,
    fun c t h => getTalentCosts_empty td c t h⟩
  · simp [getCharacterLevelUpCosts, hcexp, ceilDiv]
  · simp [getCharacterLevelUpCosts, hcexp, ceilDiv]
  · simp [getArtifactLevelCost, hamora]
  · simp [getArtifactXpCost, haxp]

/-- Witness for `costsZero_of_target_le_current` at `cur = 90`, `tgt = 40`,
artifact `16 → 8`, with absent external data and rarity 4. -/
theorem costsZero_witness :
    ((90 : Int) ∈ ([1, 20, 40, 50, 60, 70, 80, 90] : List Int)) ∧
      ((40 : Int) ∈ ([1, 20, 40, 50, 60, 70, 80, 90] : List Int)) ∧
      ((40 : Int) ≤ 90) ∧
      ((16 : Int) ∈ ([0, 4, 8, 12, 16, 20] : List Int)) ∧
      ((8 : Int) ∈ ([0, 4, 8, 12, 16, 20] : List Int)) ∧ ((8 : Int) ≤ 16) ∧
      (getCharacterAscensionCosts none 90 40 = [] ∧
        getWeaponAscensionCosts none 90 40 = [] ∧
        (getCharacterLevelUpCosts 90 40).mora = 0 ∧
        (getCharacterLevelUpCosts 90 40).heroWits = 0 ∧
        (getWeaponLevelUpCosts 90 40 4).mora = 0 ∧
        (getWeaponLevelUpCosts 90 40 4).mysticOres = 0 ∧
        getArtifactLevelCost 16 8 = 0 ∧
        getArtifactXpCost 16 8 = 0 ∧
        (∀ c t : Int, t ≤ c → getTalentCosts none c t = [])) :=
  ⟨by decide, by decide, by decide, by decide, by decide, by decide,
    costsZero_of_target_le_current 90 40 (by decide) (by decide) (by decide)
      none none none 4 16 8 (by decide) (by decide) (by decide)⟩

/-- **C3 counterexample.** Off the milestone set the claim fails:
`currentLevel = 37 ≥ targetLevel = 20`, yet the character level-up Mora cost
is 24035, not zero (the table lookup for 37 misses and defaults to 0). -/
theorem costsZero_counterexample :
    (20 : Int) ≤ 37 ∧ (getCharacterLevelUpCosts 37 20).mora = 24035 :=
  ⟨by decide, by decide⟩

/-! ## Target auto-advance (C6) -/

theorem find_gt_spec (c : Int) (l : List Int) (hp : l.Pairwise (· < ·))
    (hex : ∃ m ∈ l, c < m) :
    ∃ t, l.find? (fun o => c < o) = some t ∧ t ∈ l ∧ c < t ∧
      ∀ m ∈ l, c < m → t ≤ m := by
  induction l with
  | nil =>
    rcases hex with ⟨m, hm, _⟩
    cases hm
  | cons a l ih =>
    by_cases ha : c < a
    · refine ⟨a, ?_, List.mem_cons_self a l, ha, ?_⟩
      · simp [List.find?_cons, ha]
      · intro m hm hcm
        rcases List.mem_cons.mp hm with rfl | hm
        · exact le_refl m
        · exact le_of_lt (List.rel_of_pairwise_cons hp hm)
    · have hex' : ∃ m ∈ l, c < m := by
        rcases hex with ⟨m, hm, hcm⟩
        rcases List.mem_cons.mp hm with rfl | hm
        · exact absurd hcm ha
        · exact ⟨m, hm, hcm⟩
      rcases ih (List.Pairwise.of_cons hp) hex' with ⟨t, hf, htl, hct, hmin⟩
      refine ⟨t, ?_, List.mem_cons_of_mem a htl, hct, ?_⟩
      · simp [List.find?_cons, ha, hf]
      · intro m hm hcm
        rcases List.mem_cons.mp hm with rfl | hm
        · exact absurd hcm ha
        · exact hmin m hm hcm

/-- **C6.** On the character/weapon milestone options, when the clamped new
current level is at least the stored target level, `onCurrentInput` emits the
clamped value as the new current level and emits, as the new target level,
the least milestone strictly greater than the clamped value (which always
exists, the clamp being at most 89 < 90). -/
theorem currentInput_advances_target (tgt v : Int)
    (h : tgt ≤ max 1 (min v 89)) :
    (onCurrentInput 1 89 TARGET_LEVEL_OPTIONS tgt (some v)).current =
        some (max 1 (min v 89)) ∧
      ∃ t, (onCurrentInput 1 89 TARGET_LEVEL_OPTIONS tgt (some v)).target = some t ∧
        t ∈ TARGET_LEVEL_OPTIONS ∧ max 1 (min v 89) < t ∧
        ∀ m ∈ TARGET_LEVEL_OPTIONS, max 1 (min v 89) < m → t ≤ m := by
  have hc89 : max 1 (min v 89) ≤ 89 := by omega
  have hex : ∃ m ∈ TARGET_LEVEL_OPTIONS, max 1 (min v 89) < m :=
    ⟨90, by decide, by omega⟩
  have hp : TARGET_LEVEL_OPTIONS.Pairwise (· < ·) := by decide
  rcases find_gt_spec (max 1 (min v 89)) TARGET_LEVEL_OPTIONS hp hex with
    ⟨t, hf, htl, hct, hmin⟩
  have ht0 : t ≠ 0 := by
    have hne : ∀ m ∈ TARGET_LEVEL_OPTIONS, m ≠ 0 := by decide
    exact hne t htl
  refine ⟨rfl, ⟨t, ?_, htl, hct, hmin⟩⟩
  show (if tgt ≤ max 1 (min v 89) then _ else none) = some t
  rw [if_pos h, hf]
  simp [ht0]

/-- Witness for `currentInput_advances_target` at `targetLevel = 20` and a
typed value of 25: the emitted target is 40. -/
theorem currentInput_advances_target_witness :
    ((20 : Int) ≤ max 1 (min 25 89)) ∧
      ((onCurrentInput 1 89 TARGET_LEVEL_OPTIONS 20 (some 25)).current =
          some (max 1 (min 25 89)) ∧
        ∃ t, (onCurrentInput 1 89 TARGET_LEVEL_OPTIONS 20 (some 25)).target = some t ∧
          t ∈ TARGET_LEVEL_OPTIONS ∧ max 1 (min 25 89) < t ∧
          ∀ m ∈ TARGET_LEVEL_OPTIONS, max 1 (min 25 89) < m → t ≤ m) :=
  ⟨by decide, currentInput_advances_target 20 25 (by decide)⟩

/-! ## Goal creation (C10) -/

theorem find?_append_none {α : Type} {p : α → Bool} {l1 l2 : List α}
    (h : l1.find? p = none) : (l1 ++ l2).find? p = l2.find? p := by
  induction l1 with
  | nil => rfl
  | cons a t ih =>
    cases hpa : p a with
    | true => simp [List.find?_cons, hpa] at h
    | false =>
      simp only [List.find?_cons, hpa] at h
      simp [List.find?_cons, hpa, ih h]

/-- **C10.** `createDefaultGoal` produces exactly the claimed default record
(levels 1→90, no weapon with weapon levels 1→90, the five artifacts in fixed
order at 0→20 with locked main stats and empty substat goals, all talents
1→9); `ensureGoal` installs it for an absent character and leaves the state
untouched when a record already exists. -/
theorem ensureGoal_default (st : TrainingState) (c : String) (g : Goal) :
    (createDefaultGoal.currentLevel = 1 ∧ createDefaultGoal.targetLevel = 90 ∧
      createDefaultGoal.weapon = none ∧
      createDefaultGoal.weaponCurrentLevel = 1 ∧
      createDefaultGoal.weaponTargetLevel = 90 ∧
      createDefaultGoal.artifacts.map (fun a => a.slot) =
        ["Flower", "Plume", "Sands", "Goblet", "Circlet"] ∧
      (∀ a ∈ createDefaultGoal.artifacts,
        a.currentLevel = 0 ∧ a.targetLevel = 20 ∧
          a.desiredSubstats = [] ∧ a.targetSubstatCount = 0) ∧
      createDefaultGoal.artifacts.map (fun a => a.mainStat) =
        [some "HP", some "ATK", none, none, none] ∧
      createDefaultGoal.talents = ⟨⟨1, 9⟩, ⟨1, 9⟩, ⟨1, 9⟩⟩) ∧
    (lookupGoal st c = none →
      lookupGoal (ensureGoal st c) c = some createDefaultGoal) ∧
    (lookupGoal st c = some g → ensureGoal st c = st) := by
  refine ⟨by decide, ?_, ?_⟩
  · intro h
    have hfind : st.characterGoals.find? (fun p => p.1 == c) = none := by
      simpa [lookupGoal] using h
    simp [ensureGoal, lookupGoal, hfind, find?_append_none hfind, List.find?_cons]
  · intro h
    have hsome : ¬(lookupGoal st c).isNone = true := by simp [h]
    simp [ensureGoal, hsome]

/-- Witness for `ensureGoal_default`: creating the goal for a fresh
character, then observing that a second `ensureGoal` is the identity. -/
theorem ensureGoal_default_witness :
    lookupGoal initialState "Amber" = none ∧
      lookupGoal (ensureGoal initialState "Amber") "Amber" =
        some createDefaultGoal ∧
      lookupGoal (ensureGoal initialState "Amber") "Amber" =
        some createDefaultGoal ∧
      ensureGoal (ensureGoal initialState "Amber") "Amber" =
        ensureGoal initialState "Amber" :=
  ⟨by decide, (ensureGoal_default initialState "Amber" createDefaultGoal).2.1
      (by decide),
    by decide,
    (ensureGoal_default (ensureGoal initialState "Amber") "Amber"
      createDefaultGoal).2.2 (by decide)⟩

/-! ## Main-stat writes (C5) -/

theorem find?_updateGoalList (l : List (String × Goal)) (c : String)
    (f : Goal → Goal) :
    (updateGoalList f c l).find? (fun p => p.1 == c) =
      (l.find? (fun p => p.1 == c)).map (fun p => (p.1, f p.2)) := by
  induction l with
  | nil => rfl
  | cons p rest ih =>
    cases hpc : (p.1 == c) with
    | true => simp [updateGoalList, hpc, List.find?_cons]
    | false => simp [updateGoalList, hpc, List.find?_cons, ih]

theorem lookupGoal_updateGoal (st : TrainingState) (c : String) (f : Goal → Goal)
    (g : Goal) (h : lookupGoal st c = some g) :
    lookupGoal (updateGoal st c f) c = some (f g) := by
  have hsome : ¬(lookupGoal st c).isNone = true := by simp [h]
  have hens : ensureGoal st c = st := by simp [ensureGoal, hsome]
  rcases hfind : st.characterGoals.find? (fun p => p.1 == c) with _ | p
  · simp [lookupGoal, hfind] at h
  · have hg : p.2 = g := by simpa [lookupGoal, hfind] using h
    simp [updateGoal, hens, lookupGoal, find?_updateGoalList, hfind, hg]

theorem listModify_getD_ne {α : Type} (l : List α) (i j : Nat) (f : α → α)
    (d : α) (h : j ≠ i) : (listModify l i f).getD j d = l.getD j d := by
  induction l generalizing i j with
  | nil => cases i <;> rfl
  | cons x rest ih =>
    cases i with
    | zero =>
      cases j with
      | zero => exact absurd rfl h
      | succ j => rfl
    | succ i =>
      cases j with
      | zero => rfl
      | succ j =>
        have : j ≠ i := fun he => h (by rw [he])
        simpa [listModify] using ih i j this

theorem listModify_getD_eq {α : Type} (l : List α) (i : Nat) (f : α → α)
    (d : α) (h : i < l.length) : (listModify l i f).getD i d = f (l.getD i d) := by
  induction l generalizing i with
  | nil => cases h
  | cons x rest ih =>
    cases i with
    | zero => rfl
    | succ i => simpa [listModify] using ih i (by simpa using h)

theorem listModify_length {α : Type} (l : List α) (i : Nat) (f : α → α) :
    (listModify l i f).length = l.length := by
  induction l generalizing i with
  | nil => cases i <;> rfl
  | cons x rest ih =>
    cases i with
    | zero => rfl
    | succ i => simpa [listModify] using ih i

/-- **C5 (amended).** `isMainStatLocked` is true exactly for Flower and
Plume, and for those slots the UI renders a fixed label instead of a
selector, so no `mainStat` write is issued from the interface.  The
`setMainStat` mutation itself carries no lock check: called on any slot index
it stores `val || null` into that slot's `mainStat` — not a no-op — while
leaving the slot's other fields, the other slots, and the rest of the goal
unchanged. -/
theorem setMainStat_unguarded (slot : String) (st : TrainingState) (c : String)
    (i : Nat) (v : String) (g : Goal) (da : Artifact)
    (hg : lookupGoal st c = some g) (hi : i < g.artifacts.length) :
    (isMainStatLocked slot = true ↔ slot = "Flower" ∨ slot = "Plume") ∧
      (∃ g2 : Goal, lookupGoal (setMainStat st c i v) c = some g2 ∧
        g2.currentLevel = g.currentLevel ∧ g2.targetLevel = g.targetLevel ∧
        g2.weapon = g.weapon ∧
        g2.weaponCurrentLevel = g.weaponCurrentLevel ∧
        g2.weaponTargetLevel = g.weaponTargetLevel ∧
        g2.talents = g.talents ∧
        g2.artifacts.length = g.artifacts.length ∧
        (∀ j : Nat, j ≠ i → g2.artifacts.getD j da = g.artifacts.getD j da) ∧
        (g2.artifacts.getD i da).slot = (g.artifacts.getD i da).slot ∧
        (g2.artifacts.getD i da).currentLevel = (g.artifacts.getD i da).currentLevel ∧
        (g2.artifacts.getD i da).targetLevel = (g.artifacts.getD i da).targetLevel ∧
        (g2.artifacts.getD i da).desiredSubstats = (g.artifacts.getD i da).desiredSubstats ∧
        (g2.artifacts.getD i da).targetSubstatCount = (g.artifacts.getD i da).targetSubstatCount ∧
        (g2.artifacts.getD i da).mainStat = (if v == "" then none else some v)) := by
  constructor
  · simp [isMainStatLocked]
  · refine ⟨_, lookupGoal_updateGoal st c _ g hg, rfl, rfl, rfl, rfl, rfl, rfl,
      listModify_length g.artifacts i _,
      fun j hj => listModify_getD_ne g.artifacts i j _ da hj,
      ?_, ?_, ?_, ?_, ?_, ?_⟩
    all_goals rw [listModify_getD_eq g.artifacts i _ da hi]

/-- Witness for `setMainStat_unguarded`: writing `DEF` into slot 0 of the
default goal. -/
theorem setMainStat_unguarded_witness :
    lookupGoal (ensureGoal initialState "Amber") "Amber" =
        some createDefaultGoal ∧
      (0 : Nat) < createDefaultGoal.artifacts.length ∧
      ((isMainStatLocked "Sands" = true ↔
          "Sands" = "Flower" ∨ "Sands" = "Plume") ∧
        (∃ g2 : Goal,
          lookupGoal (setMainStat (ensureGoal initialState "Amber") "Amber" 0 "DEF")
              "Amber" = some g2 ∧
            g2.currentLevel = createDefaultGoal.currentLevel ∧
            g2.targetLevel = createDefaultGoal.targetLevel ∧
            g2.weapon = createDefaultGoal.weapon ∧
            g2.weaponCurrentLevel = createDefaultGoal.weaponCurrentLevel ∧
            g2.weaponTargetLevel = createDefaultGoal.weaponTargetLevel ∧
            g2.talents = createDefaultGoal.talents ∧
            g2.artifacts.length = createDefaultGoal.artifacts.length ∧
            (∀ j : Nat, j ≠ 0 →
              g2.artifacts.getD j ⟨"", 0, 0, none, [], 0⟩ =
                createDefaultGoal.artifacts.getD j ⟨"", 0, 0, none, [], 0⟩) ∧
            (g2.artifacts.getD 0 ⟨"", 0, 0, none, [], 0⟩).slot =
              (createDefaultGoal.artifacts.getD 0 ⟨"", 0, 0, none, [], 0⟩).slot ∧
            (g2.artifacts.getD 0 ⟨"", 0, 0, none, [], 0⟩).currentLevel =
              (createDefaultGoal.artifacts.getD 0 ⟨"", 0, 0, none, [], 0⟩).currentLevel ∧
            (g2.artifacts.getD 0 ⟨"", 0, 0, none, [], 0⟩).targetLevel =
              (createDefaultGoal.artifacts.getD 0 ⟨"", 0, 0, none, [], 0⟩).targetLevel ∧
            (g2.artifacts.getD 0 ⟨"", 0, 0, none, [], 0⟩).desiredSubstats =
              (createDefaultGoal.artifacts.getD 0 ⟨"", 0, 0, none, [], 0⟩).desiredSubstats ∧
            (g2.artifacts.getD 0 ⟨"", 0, 0, none, [], 0⟩).targetSubstatCount =
              (createDefaultGoal.artifacts.getD 0 ⟨"", 0, 0, none, [], 0⟩).targetSubstatCount ∧
            (g2.artifacts.getD 0 ⟨"", 0, 0, none, [], 0⟩).mainStat =
              (if ("DEF" == "") = true then none else some "DEF"))) :=
  ⟨by decide, by decide,
    setMainStat_unguarded "Sands" (ensureGoal initialState "Amber") "Amber" 0
      "DEF" createDefaultGoal ⟨"", 0, 0, none, [], 0⟩ (by decide) (by decide)⟩

/-- **C5 counterexample.** Directly invoking the `setMainStat` mutation on
the locked Flower slot does change the stored main stat: starting from the
default goal (Flower = HP) it becomes `DEF`, so the write is not a no-op. -/
theorem setMainStat_counterexample :
    (lookupGoal (ensureGoal initialState "Amber") "Amber").map
        (fun g => g.artifacts.map (fun a => a.mainStat)) =
      some [some "HP", some "ATK", none, none, none] ∧
    (lookupGoal (setMainStat (ensureGoal initialState "Amber") "Amber" 0 "DEF")
        "Amber").map (fun g => g.artifacts.map (fun a => a.mainStat)) =
      some [some "DEF", some "ATK", none, none, none] :=
  ⟨by decide, by decide⟩

/-! ## Rejection machinery shared by the import claims -/

theorem flatMap_ne_nil_of_mem {α β : Type} {l : List α} {x : α}
    (hx : x ∈ l) {f : α → List β} (hf : f x ≠ []) : l.flatMap f ≠ [] := by
  intro h
  rcases List.append_of_mem hx with ⟨s, t, rfl⟩
  simp only [List.flatMap_append, List.flatMap_cons, List.append_eq_nil] at h
  exact hf h.2.1

theorem importData_of_errors (A : List String) (st : JsStore) (doc : JValue)
    (h : validateImportData A doc ≠ []) : importData A st doc = st := by
  have hpos : 0 < (validateImportData A doc).length := List.length_pos.mpr h
  simp [importData, hpos]

theorem validate_ne_nil_of_goals (A : List String)
    (fields goals : List (String × JValue))
    (hgoals : jLookup fields "characterGoals" = some (.jobj goals))
    (h : goals.flatMap (fun p => goalErrors A p.1 p.2) ≠ []) :
    validateImportData A (.jobj fields) ≠ [] := by
  intro hc
  simp only [validateImportData, List.append_eq_nil] at hc
  have hg := hc.2
  simp only [characterGoalsErrors, hgoals] at hg
  exact h hg

/-- **C1.** A document that references an unknown character identifier (in
`ownedCharacters`, `selectedCharacter`, or as a `characterGoals` key) makes
the validation error list non-empty, and whenever that list is non-empty
`importData` returns the store completely unchanged. -/
theorem importData_rejects_unknown_atomically (A : List String) (st : JsStore)
    (doc : JValue) :
    (referencesUnknownCharacter A doc → validateImportData A doc ≠ []) ∧
      (validateImportData A doc ≠ [] → importData A st doc = st) := by
  refine ⟨?_, importData_of_errors A st doc⟩
  rintro ⟨fields, rfl, hcase⟩
  intro hc
  simp only [validateImportData, List.append_eq_nil] at hc
  rcases hcase with ⟨names, hlk, s, hs, hsA⟩ | ⟨s, hlk, hsA⟩ |
    ⟨goals, hlk, p, hp, hpA⟩
  · have howned := hc.1.1
    simp only [ownedCharactersErrors, hlk] at howned
    exact flatMap_ne_nil_of_mem hs (by simp [ownedNameErrors, hsA]) howned
  · have hsel := hc.1.2
    simp [selectedCharacterErrors, hlk, hsA] at hsel
  · have hg := hc.2
    simp only [characterGoalsErrors, hlk] at hg
    exact flatMap_ne_nil_of_mem hp (by simp [goalErrors, hpA]) hg

/-- Witness for `importData_rejects_unknown_atomically`: a document whose
`ownedCharacters` contains the unknown name `Zzz` is rejected and the store
is unchanged. -/
theorem importData_rejects_unknown_witness :
    referencesUnknownCharacter ["Amber"]
        (.jobj [("ownedCharacters", .jarr [.jstr "Zzz"])]) ∧
      validateImportData ["Amber"]
        (.jobj [("ownedCharacters", .jarr [.jstr "Zzz"])]) ≠ [] ∧
      importData ["Amber"] ⟨.jnull, .jnull, .jnull, .jnull⟩
          (.jobj [("ownedCharacters", .jarr [.jstr "Zzz"])]) =
        ⟨.jnull, .jnull, .jnull, .jnull⟩ := by
  have href : referencesUnknownCharacter ["Amber"]
      (.jobj [("ownedCharacters", .jarr [.jstr "Zzz"])]) :=
    ⟨_, rfl, Or.inl ⟨_, rfl, "Zzz", by simp, by decide⟩⟩
  have h := importData_rejects_unknown_atomically ["Amber"]
    ⟨.jnull, .jnull, .jnull, .jnull⟩
    (.jobj [("ownedCharacters", .jarr [.jstr "Zzz"])])
  exact ⟨href, h.1 href, h.2 (h.1 href)⟩

/-! ## Level storage and validation (C7) -/

theorem charLevelOk_false_of_not_mem (n : Int)
    (hn : n ∉ ([1, 20, 40, 50, 60, 70, 80, 90] : List Int)) :
    charLevelOk (some (.jnum n)) = false := by
  have hne1 : ¬n = 1 := fun he => hn (by simp [he])
  have hnV : n ∉ VALID_CHARACTER_LEVELS := by
    intro hv
    apply hn
    simp only [VALID_CHARACTER_LEVELS, List.mem_cons, List.not_mem_nil,
      or_false] at hv
    simp only [List.mem_cons, List.not_mem_nil, or_false]
    tauto
  simp [charLevelOk, numVal, hne1, hnV]

theorem goalLevelErrors_ne_nil (c : String) (goal : JValue) (n : Int)
    (hlev : getProp goal "currentLevel" = some (.jnum n) ∨
      getProp goal "targetLevel" = some (.jnum n))
    (hn : n ∉ ([1, 20, 40, 50, 60, 70, 80, 90] : List Int)) :
    goalLevelErrors c goal ≠ [] := by
  intro hcon
  simp only [goalLevelErrors] at hcon
  rcases List.append_eq_nil.mp hcon with ⟨h1, h2⟩
  rcases hlev with hlev | hlev
  · rw [hlev, charLevelOk_false_of_not_mem n hn] at h1
    simp at h1
  · rw [hlev, charLevelOk_false_of_not_mem n hn] at h2
    simp at h2

theorem goalErrors_ne_of_level (A : List String) (c : String) (goal : JValue)
    (n : Int) (hcA : c ∈ A)
    (hlev : getProp goal "currentLevel" = some (.jnum n) ∨
      getProp goal "targetLevel" = some (.jnum n))
    (hn : n ∉ ([1, 20, 40, 50, 60, 70, 80, 90] : List Int)) :
    goalErrors A c goal ≠ [] := by
  have hobj : jsIsObject goal = true := by
    rcases hlev with hlev | hlev <;> cases goal <;>
      simp_all [getProp, jsIsObject]
  intro hcon
  have heq : goalErrors A c goal =
      goalLevelErrors c goal ++ goalArtifactErrors c goal ++
        goalTalentErrors c goal := by
    unfold goalErrors
    rw [if_pos hcA, if_pos hobj]
  rw [heq] at hcon
  exact goalLevelErrors_ne_nil c goal n hlev hn
    (List.append_eq_nil.mp (List.append_eq_nil.mp hcon).1).1

theorem talentCond_true (t tv : JValue) (key : String) (n : Int)
    (htk : getProp t key = some tv) (htv : jTruthy tv = true)
    (hlev : getProp tv "currentLevel" = some (.jnum n) ∨
      getProp tv "targetLevel" = some (.jnum n))
    (hn : n < 1 ∨ 10 < n) :
    (optTruthy (getProp t key) &&
      (jsLtNum ((getProp t key).bind (fun v => getProp v "currentLevel")) 1 ||
        jsGtNum ((getProp t key).bind (fun v => getProp v "currentLevel")) 10 ||
        jsLtNum ((getProp t key).bind (fun v => getProp v "targetLevel")) 1 ||
        jsGtNum ((getProp t key).bind (fun v => getProp v "targetLevel")) 10)) =
      true := by
  rw [htk]
  simp only [Option.bind_some, optTruthy, htv, Bool.true_and]
  rcases hlev with hlev | hlev
  · have hlt : jsLtNum (getProp tv "currentLevel") 1 = decide (n < 1) := by
      rw [hlev]; rfl
    have hgt : jsGtNum (getProp tv "currentLevel") 10 = decide (10 < n) := by
      rw [hlev]; rfl
    rcases hn with hn | hn
    · simp [hlt, hn]
    · simp [hgt, hn]
  · have hlt : jsLtNum (getProp tv "targetLevel") 1 = decide (n < 1) := by
      rw [hlev]; rfl
    have hgt : jsGtNum (getProp tv "targetLevel") 10 = decide (10 < n) := by
      rw [hlev]; rfl
    rcases hn with hn | hn
    · simp [hlt, hn]
    · simp [hgt, hn]

theorem goalErrors_ne_of_talent (A : List String) (c : String)
    (goal t tv : JValue) (key : String) (n : Int) (hcA : c ∈ A)
    (htal : getProp goal "talents" = some t) (htobj : jsIsObject t = true)
    (hkey : key ∈ VALID_TALENT_KEYS)
    (htk : getProp t key = some tv) (htv : jTruthy tv = true)
    (hlev : getProp tv "currentLevel" = some (.jnum n) ∨
      getProp tv "targetLevel" = some (.jnum n))
    (hn : n < 1 ∨ 10 < n) :
    goalErrors A c goal ≠ [] := by
  have hobj : jsIsObject goal = true := by
    cases goal <;> simp_all [getProp, jsIsObject]
  have htalerr : goalTalentErrors c goal ≠ [] := by
    simp only [goalTalentErrors, htal, htobj, if_pos rfl]
    refine flatMap_ne_nil_of_mem hkey ?_
    rw [talentCond_true t tv key n htk htv hlev hn]
    simp
  intro hcon
  have heq : goalErrors A c goal =
      goalLevelErrors c goal ++ goalArtifactErrors c goal ++
        goalTalentErrors c goal := by
    unfold goalErrors
    rw [if_pos hcA, if_pos hobj]
  rw [heq] at hcon
  exact htalerr (List.append_eq_nil.mp hcon).2

/-- **C7 (amended).** Mutation operations clamp only to the numeric input
range (`onCurrentInput` emits `max(currentMin, min(val, currentMax))`), so
stored levels are NOT restricted to the milestone set; the import validator
rejects a character goal whose `currentLevel` or `targetLevel` is a number
outside `{1} ∪ {20,…,90}`, and rejects a present truthy talent whose
`currentLevel` or `targetLevel` is a number outside `[1,10]` (store
unchanged in both cases), but a document carrying out-of-set weapon or
artifact levels passes validation unchecked. -/
theorem levelStorage_amended (mn mx tgt v : Int) (opts : List Int)
    (hmn : mn ≤ mx) (A : List String) (st : JsStore)
    (fields goals : List (String × JValue)) (c : String) (goal : JValue)
    (n : Int)
    (hgoals : jLookup fields "characterGoals" = some (.jobj goals))
    (hmem : (c, goal) ∈ goals) (hcA : c ∈ A)
    (hlev : getProp goal "currentLevel" = some (.jnum n) ∨
      getProp goal "targetLevel" = some (.jnum n))
    (hn : n ∉ ([1, 20, 40, 50, 60, 70, 80, 90] : List Int)) :
    ((onCurrentInput mn mx opts tgt (some v)).current =
        some (max mn (min v mx)) ∧
      mn ≤ max mn (min v mx) ∧ max mn (min v mx) ≤ mx) ∧
    (validateImportData A (.jobj fields) ≠ [] ∧
      importData A st (.jobj fields) = st) ∧
    (∀ (fields2 goals2 : List (String × JValue)) (c2 : String)
        (goal2 t tv : JValue) (key : String) (m : Int),
      jLookup fields2 "characterGoals" = some (.jobj goals2) →
      (c2, goal2) ∈ goals2 → c2 ∈ A →
      getProp goal2 "talents" = some t → jsIsObject t = true →
      key ∈ VALID_TALENT_KEYS → getProp t key = some tv →
      jTruthy tv = true →
      (getProp tv "currentLevel" = some (.jnum m) ∨
        getProp tv "targetLevel" = some (.jnum m)) →
      (m < 1 ∨ 10 < m) →
      validateImportData A (.jobj fields2) ≠ [] ∧
        importData A st (.jobj fields2) = st) ∧
    validateImportData ["Amber"]
      (.jobj [("characterGoals", .jobj [("Amber", .jobj
        [("currentLevel", .jnum 1), ("targetLevel", .jnum 90),
         ("weaponCurrentLevel", .jnum 9999),
         ("weaponTargetLevel", .jnum 9999),
         ("artifacts", .jarr
           [.jobj [("slot", .jstr "Flower"), ("currentLevel", .jnum 9999),
                   ("targetLevel", .jnum 9999)],
            .jobj [("slot", .jstr "Plume")],
            .jobj [("slot", .jstr "Sands")],
            .jobj [("slot", .jstr "Goblet")],
            .jobj [("slot", .jstr "Circlet")]])])])]) = [] := by
  have hval : validateImportData A (.jobj fields) ≠ [] :=
    validate_ne_nil_of_goals A fields goals hgoals
      (flatMap_ne_nil_of_mem hmem
        (goalErrors_ne_of_level A c goal n hcA hlev hn))
  refine ⟨⟨rfl, le_max_left mn _, ?_⟩,
    ⟨hval, importData_of_errors A st _ hval⟩, ?_, by rfl⟩
  · omega
  · intro fields2 goals2 c2 goal2 t tv key m h1 h2 h3 h4 h5 h6 h7 h8 h9 h10
    have hv2 : validateImportData A (.jobj fields2) ≠ [] :=
      validate_ne_nil_of_goals A fields2 goals2 h1
        (flatMap_ne_nil_of_mem h2
          (goalErrors_ne_of_talent A c2 goal2 t tv key m h3 h4 h5 h6 h7 h8
            h9 h10))
    exact ⟨hv2, importData_of_errors A st _ hv2⟩

/-- Witness for `levelStorage_amended`: a document storing `currentLevel 37`
for a known character is rejected, while the numeric clamp admits 37. -/
theorem levelStorage_amended_witness :
    ((1 : Int) ≤ 89) ∧
      jLookup [("characterGoals", JValue.jobj [("Amber", JValue.jobj
          [("currentLevel", JValue.jnum 37)])])] "characterGoals" =
        some (.jobj [("Amber", JValue.jobj [("currentLevel", JValue.jnum 37)])]) ∧
      ("Amber", JValue.jobj [("currentLevel", JValue.jnum 37)]) ∈
        [("Amber", JValue.jobj [("currentLevel", JValue.jnum 37)])] ∧
      "Amber" ∈ ["Amber"] ∧
      (getProp (JValue.jobj [("currentLevel", JValue.jnum 37)]) "currentLevel" =
          some (.jnum 37) ∨
        getProp (JValue.jobj [("currentLevel", JValue.jnum 37)]) "targetLevel" =
          some (.jnum 37)) ∧
      ((37 : Int) ∉ ([1, 20, 40, 50, 60, 70, 80, 90] : List Int)) ∧
      (((onCurrentInput 1 89 TARGET_LEVEL_OPTIONS 90 (some 37)).current =
          some (max (1 : Int) (min 37 89)) ∧
        (1 : Int) ≤ max (1 : Int) (min 37 89) ∧ max (1 : Int) (min 37 89) ≤ 89) ∧
      (validateImportData ["Amber"]
          (.jobj [("characterGoals", .jobj [("Amber", .jobj
            [("currentLevel", .jnum 37)])])]) ≠ [] ∧
        importData ["Amber"] ⟨.jnull, .jnull, .jnull, .jnull⟩
            (.jobj [("characterGoals", .jobj [("Amber", .jobj
              [("currentLevel", .jnum 37)])])]) =
          ⟨.jnull, .jnull, .jnull, .jnull⟩) ∧
      (∀ (fields2 goals2 : List (String × JValue)) (c2 : String)
          (goal2 t tv : JValue) (key : String) (m : Int),
        jLookup fields2 "characterGoals" = some (.jobj goals2) →
        (c2, goal2) ∈ goals2 → c2 ∈ ["Amber"] →
        getProp goal2 "talents" = some t → jsIsObject t = true →
        key ∈ VALID_TALENT_KEYS → getProp t key = some tv →
        jTruthy tv = true →
        (getProp tv "currentLevel" = some (.jnum m) ∨
          getProp tv "targetLevel" = some (.jnum m)) →
        (m < 1 ∨ 10 < m) →
        validateImportData ["Amber"] (.jobj fields2) ≠ [] ∧
          importData ["Amber"] ⟨.jnull, .jnull, .jnull, .jnull⟩
            (.jobj fields2) = ⟨.jnull, .jnull, .jnull, .jnull⟩) ∧
      validateImportData ["Amber"]
        (.jobj [("characterGoals", .jobj [("Amber", .jobj
          [("currentLevel", .jnum 1), ("targetLevel", .jnum 90),
           ("weaponCurrentLevel", .jnum 9999),
           ("weaponTargetLevel", .jnum 9999),
           ("artifacts", .jarr
             [.jobj [("slot", .jstr "Flower"), ("currentLevel", .jnum 9999),
                     ("targetLevel", .jnum 9999)],
              .jobj [("slot", .jstr "Plume")],
              .jobj [("slot", .jstr "Sands")],
              .jobj [("slot", .jstr "Goblet")],
              .jobj [("slot", .jstr "Circlet")]])])])]) = []) :=
  ⟨by decide, rfl, by simp, by decide, Or.inl rfl, by decide,
    levelStorage_amended 1 89 90 37 TARGET_LEVEL_OPTIONS (by decide) ["Amber"]
      ⟨.jnull, .jnull, .jnull, .jnull⟩
      [("characterGoals", JValue.jobj
        [("Amber", JValue.jobj [("currentLevel", JValue.jnum 37)])])]
      [("Amber", JValue.jobj [("currentLevel", JValue.jnum 37)])]
      "Amber" (JValue.jobj [("currentLevel", JValue.jnum 37)]) 37 rfl
      (by simp) (by decide) (Or.inl rfl) (by decide)⟩

/-- **C7 counterexample.** Through the character-level input wiring, typing
37 stores `currentLevel = 37` in the goal record as-is — 37 is outside the
milestone set, so stored levels are not always drawn from it. -/
theorem storedLevel_counterexample :
    (lookupGoal (applyCharCurrentInput (ensureGoal initialState "Amber")
        "Amber" (some 37)) "Amber").map (fun g => g.currentLevel) = some 37 ∧
      (37 : Int) ∉ ([1, 20, 40, 50, 60, 70, 80, 90] : List Int) :=
  ⟨by decide, by decide⟩

/-! ## Talent validation (C8) -/

/-- **C8 (amended).** For each of the three talent keys that is present with
a truthy value, a `currentLevel` or `targetLevel` that is a number outside
`[1, 10]` makes the validator report an error, and the document is rejected
with the store unchanged; however missing talent keys produce no error, and
a present truthy talent whose level fields are missing is also accepted
(comparisons against `undefined` are false) — so neither the three keys nor
their level fields are required to be present. -/
theorem talentValidation_partial (A : List String) (st : JsStore)
    (fields goals : List (String × JValue)) (c : String)
    (goal t tv : JValue) (key : String) (n : Int)
    (hgoals : jLookup fields "characterGoals" = some (.jobj goals))
    (hmem : (c, goal) ∈ goals) (hcA : c ∈ A)
    (htal : getProp goal "talents" = some t) (htobj : jsIsObject t = true)
    (hkey : key ∈ VALID_TALENT_KEYS)
    (htk : getProp t key = some tv) (htv : jTruthy tv = true)
    (hlev : getProp tv "currentLevel" = some (.jnum n) ∨
      getProp tv "targetLevel" = some (.jnum n))
    (hn : n < 1 ∨ 10 < n) :
    validateImportData A (.jobj fields) ≠ [] ∧
      importData A st (.jobj fields) = st := by
  have hval : validateImportData A (.jobj fields) ≠ [] :=
    validate_ne_nil_of_goals A fields goals hgoals
      (flatMap_ne_nil_of_mem hmem
        (goalErrors_ne_of_talent A c goal t tv key n hcA htal htobj hkey htk
          htv hlev hn))
  exact ⟨hval, importData_of_errors A st _ hval⟩

/-- Witness for `talentValidation_partial`: a goal whose `normalAttack`
talent has `targetLevel 11` is rejected. -/
theorem talentValidation_partial_witness :
    jLookup [("characterGoals", JValue.jobj [("Amber", JValue.jobj
        [("talents", JValue.jobj [("normalAttack", JValue.jobj
          [("currentLevel", JValue.jnum 1), ("targetLevel", JValue.jnum 11)])])])])]
        "characterGoals" =
      some (.jobj [("Amber", JValue.jobj
        [("talents", JValue.jobj [("normalAttack", JValue.jobj
          [("currentLevel", JValue.jnum 1), ("targetLevel", JValue.jnum 11)])])])]) ∧
      (getProp (JValue.jobj
            [("currentLevel", JValue.jnum 1), ("targetLevel", JValue.jnum 11)])
          "currentLevel" = some (.jnum 11) ∨
        getProp (JValue.jobj
            [("currentLevel", JValue.jnum 1), ("targetLevel", JValue.jnum 11)])
          "targetLevel" = some (.jnum 11)) ∧
      ((11 : Int) < 1 ∨ (10 : Int) < 11) ∧
      (validateImportData ["Amber"]
          (.jobj [("characterGoals", .jobj [("Amber", .jobj
            [("talents", .jobj [("normalAttack", .jobj
              [("currentLevel", .jnum 1), ("targetLevel", .jnum 11)])])])])]) ≠ [] ∧
        importData ["Amber"] ⟨.jnull, .jnull, .jnull, .jnull⟩
            (.jobj [("characterGoals", .jobj [("Amber", .jobj
              [("talents", .jobj [("normalAttack", .jobj
                [("currentLevel", .jnum 1), ("targetLevel", .jnum 11)])])])])]) =
          ⟨.jnull, .jnull, .jnull, .jnull⟩) :=
  ⟨rfl, Or.inr rfl, Or.inr (by decide),
    talentValidation_partial ["Amber"] ⟨.jnull, .jnull, .jnull, .jnull⟩
      [("characterGoals", JValue.jobj [("Amber", JValue.jobj
        [("talents", JValue.jobj [("normalAttack", JValue.jobj
          [("currentLevel", JValue.jnum 1), ("targetLevel", JValue.jnum 11)])])])])]
      [("Amber", JValue.jobj
        [("talents", JValue.jobj [("normalAttack", JValue.jobj
          [("currentLevel", JValue.jnum 1), ("targetLevel", JValue.jnum 11)])])])]
      "Amber"
      (JValue.jobj [("talents", JValue.jobj [("normalAttack", JValue.jobj
        [("currentLevel", JValue.jnum 1), ("targetLevel", JValue.jnum 11)])])])
      (JValue.jobj [("normalAttack", JValue.jobj
        [("currentLevel", JValue.jnum 1), ("targetLevel", JValue.jnum 11)])])
      (JValue.jobj
        [("currentLevel", JValue.jnum 1), ("targetLevel", JValue.jnum 11)])
      "normalAttack" 11 rfl (by simp) (by decide) rfl rfl
      (by decide) rfl rfl (Or.inr rfl) (Or.inr (by decide))⟩

/-- **C8 counterexample.** A goal whose `talents` object is present but
empty — all three required keys missing — produces no validation error at
all, and the document is accepted and applied, contradicting the claim that
such a document is rejected; likewise a present truthy talent whose
`currentLevel`/`targetLevel` fields are missing is accepted. -/
theorem talentValidation_counterexample :
    validateImportData ["Amber"]
        (.jobj [("characterGoals", .jobj [("Amber", .jobj
          [("currentLevel", .jnum 1), ("targetLevel", .jnum 90),
           ("talents", .jobj [])])])]) = [] ∧
      importData ["Amber"] ⟨.jnull, .jnull, .jnull, .jnull⟩
          (.jobj [("characterGoals", .jobj [("Amber", .jobj
            [("currentLevel", .jnum 1), ("targetLevel", .jnum 90),
             ("talents", .jobj [])])])]) =
        ⟨.jnull,
          .jobj [("Amber", .jobj
            [("currentLevel", .jnum 1), ("targetLevel", .jnum 90),
             ("talents", .jobj [])])],
          .jnull, .jnull⟩ ∧
      validateImportData ["Amber"]
        (.jobj [("characterGoals", .jobj [("Amber", .jobj
          [("currentLevel", .jnum 1), ("targetLevel", .jnum 90),
           ("talents", .jobj [("normalAttack", .jobj [])])])])]) = [] :=
  ⟨rfl, rfl, rfl⟩

/-! ## Export / import round trip (C9) -/

theorem exists_five {α : Type} (l : List α) (h : l.length = 5) :
    ∃ a0 a1 a2 a3 a4, l = [a0, a1, a2, a3, a4] := by
  rcases l with _ | ⟨a0, l⟩
  · simp at h
  rcases l with _ | ⟨a1, l⟩
  · simp at h
  rcases l with _ | ⟨a2, l⟩
  · simp at h
  rcases l with _ | ⟨a3, l⟩
  · simp at h
  rcases l with _ | ⟨a4, l⟩
  · simp at h
  rcases l with _ | ⟨a5, l⟩
  · exact ⟨a0, a1, a2, a3, a4, rfl⟩
  · simp at h

theorem goalLevelErrors_encodeGoal (c : String) (g : Goal)
    (hc : g.currentLevel ∈ VALID_CHARACTER_LEVELS ∨ g.currentLevel = 1)
    (ht : g.targetLevel ∈ VALID_CHARACTER_LEVELS ∨ g.targetLevel = 1) :
    goalLevelErrors c (encodeGoal g) = [] := by
  have h1 : getProp (encodeGoal g) "currentLevel" =
      some (.jnum g.currentLevel) := rfl
  have h2 : getProp (encodeGoal g) "targetLevel" =
      some (.jnum g.targetLevel) := rfl
  have e1 : charLevelOk (getProp (encodeGoal g) "currentLevel") = true := by
    rw [h1]
    simp only [charLevelOk, numVal]
    rcases hc with h | h <;> simp [h]
  have e2 : charLevelOk (getProp (encodeGoal g) "targetLevel") = true := by
    rw [h2]
    simp only [charLevelOk, numVal]
    rcases ht with h | h <;> simp [h]
  simp [goalLevelErrors, e1, e2]

theorem goalArtifactErrors_encodeGoal (c : String) (g : Goal)
    (hs : g.artifacts.map (fun a => a.slot) = VALID_SLOTS) :
    goalArtifactErrors c (encodeGoal g) = [] := by
  have hlen : g.artifacts.length = 5 := by
    have := congrArg List.length hs
    simpa using this
  obtain ⟨a0, a1, a2, a3, a4, hl⟩ := exists_five g.artifacts hlen
  rw [hl] at hs
  simp only [List.map_cons, List.map_nil, VALID_SLOTS, List.cons.injEq,
    and_true] at hs
  obtain ⟨h0, h1, h2, h3, h4⟩ := hs
  have hgp : getProp (encodeGoal g) "artifacts" =
      some (.jarr (g.artifacts.map encodeArtifact)) := rfl
  rw [goalArtifactErrors, hgp, hl]
  simp [encodeArtifact, getProp, jLookup, strVal, jTruthy, h0, h1, h2, h3, h4,
    List.range_succ, VALID_SLOTS]


theorem goalTalentErrors_encodeGoal (c : String) (g : Goal)
    (h1 : talentPairValid g.talents.normalAttack = true)
    (h2 : talentPairValid g.talents.skill = true)
    (h3 : talentPairValid g.talents.burst = true) :
    goalTalentErrors c (encodeGoal g) = [] := by
  have hgp : getProp (encodeGoal g) "talents" =
      some (.jobj
        [("normalAttack", encodeTalentPair g.talents.normalAttack),
         ("skill", encodeTalentPair g.talents.skill),
         ("burst", encodeTalentPair g.talents.burst)]) := rfl
  have hlt : ∀ m : Int, 1 ≤ m → jsLtNum (some (.jnum m)) 1 = false := by
    intro m hm
    simp only [jsLtNum, decide_eq_false_iff_not, not_lt]
    exact hm
  have hgt : ∀ m : Int, m ≤ 10 → jsGtNum (some (.jnum m)) 10 = false := by
    intro m hm
    simp only [jsGtNum, decide_eq_false_iff_not, not_lt]
    exact hm
  obtain ⟨⟨⟨b1, b2⟩, b3⟩, b4⟩ := by simpa [talentPairValid] using h1
  obtain ⟨⟨⟨c1, c2⟩, c3⟩, c4⟩ := by simpa [talentPairValid] using h2
  obtain ⟨⟨⟨d1, d2⟩, d3⟩, d4⟩ := by simpa [talentPairValid] using h3
  rw [goalTalentErrors, hgp]
  simp [VALID_TALENT_KEYS, getProp, jLookup, optTruthy, jTruthy, jsIsObject,
    encodeTalentPair, hlt _ b1, hgt _ b2, hlt _ b3, hgt _ b4, hlt _ c1,
    hgt _ c2, hlt _ c3, hgt _ c4, hlt _ d1, hgt _ d2, hlt _ d3, hgt _ d4]

theorem goalErrors_encodeGoal (A : List String) (c : String) (g : Goal)
    (hcA : c ∈ A) (hv : goalExportValid g = true) :
    goalErrors A c (encodeGoal g) = [] := by
  obtain ⟨⟨⟨⟨⟨hv1, hv2⟩, hv3⟩, hv4⟩, hv5⟩, hv6⟩ :=
    by simpa [goalExportValid, -Bool.or_eq_true, -beq_iff_eq] using hv
  have hobj : jsIsObject (encodeGoal g) = true := rfl
  rw [goalErrors, if_pos hcA, if_pos hobj]
  rw [goalLevelErrors_encodeGoal c g (by simpa using hv1) (by simpa using hv2),
    goalArtifactErrors_encodeGoal c g (by simpa using hv3),
    goalTalentErrors_encodeGoal c g hv4 hv5 hv6]
  rfl

theorem ownedSection_nil (A : List String) (l : List String)
    (h : ∀ x ∈ l, x ∈ A) :
    (l.map JValue.jstr).flatMap (ownedNameErrors A) = [] := by
  induction l with
  | nil => rfl
  | cons x t ih =>
    simp only [List.map_cons, List.flatMap_cons]
    rw [ih (fun y hy => h y (List.mem_cons_of_mem x hy))]
    simp [ownedNameErrors, h x (List.mem_cons_self x t)]

theorem goalsSection_nil (A : List String) (l : List (String × Goal))
    (h : ∀ p ∈ l, p.1 ∈ A ∧ goalExportValid p.2 = true) :
    (l.map (fun p => (p.1, encodeGoal p.2))).flatMap
      (fun p => goalErrors A p.1 p.2) = [] := by
  induction l with
  | nil => rfl
  | cons p t ih =>
    simp only [List.map_cons, List.flatMap_cons]
    rw [ih (fun q hq => h q (List.mem_cons_of_mem p hq)),
      goalErrors_encodeGoal A p.1 p.2 (h p (List.mem_cons_self p t)).1
        (h p (List.mem_cons_self p t)).2]
    rfl

theorem validate_exportDoc (A : List String) (s : TrainingState)
    (h : storeExportValid A s = true) :
    validateImportData A (exportDoc s) = [] := by
  rw [storeExportValid, Bool.and_eq_true, Bool.and_eq_true] at h
  obtain ⟨⟨ho, hg⟩, hsel⟩ := h
  have ho2 : ∀ x ∈ s.ownedCharacters, x ∈ A := by
    intro x hx
    have := List.all_eq_true.mp ho x hx
    simpa using this
  have hg2 : ∀ p ∈ s.characterGoals, p.1 ∈ A ∧ goalExportValid p.2 = true := by
    intro p hp
    have := List.all_eq_true.mp hg p hp
    rw [Bool.and_eq_true] at this
    exact ⟨by simpa using this.1, this.2⟩
  have e1 : ownedCharactersErrors A
      [("ownedCharacters", .jarr (s.ownedCharacters.map JValue.jstr)),
       ("characterGoals", .jobj (s.characterGoals.map (fun p => (p.1, encodeGoal p.2)))),
       ("selectedCharacter", encodeOptString s.selectedCharacter),
       ("ownershipMode", .jbool s.ownershipMode)] =
      (s.ownedCharacters.map JValue.jstr).flatMap (ownedNameErrors A) := rfl
  have e3 : characterGoalsErrors A
      [("ownedCharacters", .jarr (s.ownedCharacters.map JValue.jstr)),
       ("characterGoals", .jobj (s.characterGoals.map (fun p => (p.1, encodeGoal p.2)))),
       ("selectedCharacter", encodeOptString s.selectedCharacter),
       ("ownershipMode", .jbool s.ownershipMode)] =
      (s.characterGoals.map (fun p => (p.1, encodeGoal p.2))).flatMap
        (fun p => goalErrors A p.1 p.2) := rfl
  have e2 : selectedCharacterErrors A
      [("ownedCharacters", .jarr (s.ownedCharacters.map JValue.jstr)),
       ("characterGoals", .jobj (s.characterGoals.map (fun p => (p.1, encodeGoal p.2)))),
       ("selectedCharacter", encodeOptString s.selectedCharacter),
       ("ownershipMode", .jbool s.ownershipMode)] = [] := by
    cases hs : s.selectedCharacter with
    | none =>
      have : encodeOptString s.selectedCharacter = .jnull := by
        rw [hs]; rfl
      simp [selectedCharacterErrors, jLookup, this, hs, encodeOptString]
    | some nm =>
      have henc : encodeOptString s.selectedCharacter = .jstr nm := by
        rw [hs]; rfl
      have hmem : nm ∈ A := by
        rw [hs] at hsel
        simpa using hsel
      simp [selectedCharacterErrors, jLookup, henc, hmem, hs, encodeOptString]
  show ownedCharactersErrors A _ ++ selectedCharacterErrors A _ ++
      characterGoalsErrors A _ = []
  rw [e1, e2, e3, ownedSection_nil A _ ho2, goalsSection_nil A _ hg2]
  rfl

theorem importData_exportDoc (A : List String) (st0 : JsStore)
    (s : TrainingState)
    (hval : validateImportData A (exportDoc s) = []) :
    importData A st0 (exportDoc s) =
      { ownedCharacters := .jarr (s.ownedCharacters.map JValue.jstr),
        characterGoals := .jobj (s.characterGoals.map (fun p => (p.1, encodeGoal p.2))),
        selectedCharacter := encodeOptString s.selectedCharacter,
        ownershipMode := st0.ownershipMode } := by
  have hnot : ¬0 < (validateImportData A (exportDoc s)).length := by
    simp [hval]
  rw [importData, if_neg hnot]
  rfl

/-- **C9 (amended).** Export-then-import is the identity for every store
state whose serialization passes the validator (all names in the allow-list,
character levels in `{1} ∪ {20,…,90}`, artifact slots canonical, talent
levels in `[1,10]`): validation yields no errors and `importData` sets
`ownedCharacters`, `characterGoals` and `selectedCharacter` to exactly the
exported JSON values.  Reachable states with an off-milestone character
`currentLevel` (typed through the number input) fail validation instead, and
the store is left unchanged — see the counterexample. -/
theorem exportImport_roundtrip (A : List String) (s : TrainingState)
    (st0 : JsStore) (h : storeExportValid A s = true) :
    validateImportData A (exportDoc s) = [] ∧
      importData A st0 (exportDoc s) =
        { ownedCharacters := .jarr (s.ownedCharacters.map JValue.jstr),
          characterGoals :=
            .jobj (s.characterGoals.map (fun p => (p.1, encodeGoal p.2))),
          selectedCharacter := encodeOptString s.selectedCharacter,
          ownershipMode := st0.ownershipMode } :=
  ⟨validate_exportDoc A s h,
    importData_exportDoc A st0 s (validate_exportDoc A s h)⟩

/-- Witness for `exportImport_roundtrip`: the default state for one owned,
selected character round-trips. -/
theorem exportImport_roundtrip_witness :
    storeExportValid ["Amber"]
        { ownedCharacters := ["Amber"],
          characterGoals := [("Amber", createDefaultGoal)],
          selectedCharacter := some "Amber", ownershipMode := false } = true ∧
      (validateImportData ["Amber"]
          (exportDoc
            { ownedCharacters := ["Amber"],
              characterGoals := [("Amber", createDefaultGoal)],
              selectedCharacter := some "Amber", ownershipMode := false }) = [] ∧
        importData ["Amber"] ⟨.jnull, .jnull, .jnull, .jnull⟩
            (exportDoc
              { ownedCharacters := ["Amber"],
                characterGoals := [("Amber", createDefaultGoal)],
                selectedCharacter := some "Amber", ownershipMode := false }) =
          { ownedCharacters := .jarr (["Amber"].map JValue.jstr),
            characterGoals :=
              .jobj ([("Amber", createDefaultGoal)].map
                (fun p => (p.1, encodeGoal p.2))),
            selectedCharacter := encodeOptString (some "Amber"),
            ownershipMode := JValue.jnull }) :=
  ⟨by decide,
    exportImport_roundtrip ["Amber"]
      { ownedCharacters := ["Amber"],
        characterGoals := [("Amber", createDefaultGoal)],
        selectedCharacter := some "Amber", ownershipMode := false }
      ⟨.jnull, .jnull, .jnull, .jnull⟩ (by decide)⟩

/-- **C9 counterexample.** The reachable state obtained by typing 37 into
the character current-level input exports a document the validator rejects
(`currentLevel 37` is off the milestone set), so export-then-import is not
the identity: the import leaves the target store untouched instead of
restoring the roster. -/
theorem exportImport_counterexample :
    validateImportData ["Amber"]
        (exportDoc (applyCharCurrentInput (ensureGoal initialState "Amber")
          "Amber" (some 37))) =
      ["\"Amber\" has invalid currentLevel"] ∧
      importData ["Amber"] ⟨.jnull, .jnull, .jnull, .jnull⟩
          (exportDoc (applyCharCurrentInput (ensureGoal initialState "Amber")
            "Amber" (some 37))) =
        ⟨.jnull, .jnull, .jnull, .jnull⟩ :=
  ⟨rfl, rfl⟩

end TrainingGuide
